import Mathlib

/-!
# SD-card error accounting of `drivers/mmc/host/mmc-sec-feature.c`

A shallow embedding of the error-classification, notification-threshold and
busy-stuck logic of the driver, followed by theorems about it.

Conventions of the embedding

* The global `sdi` becomes a value of `mmc_sd_sec_device_info` that every
  operation takes and returns.
* C unsigned integers are natural numbers; every `++` on a `u32` is written
  `(x + 1) % U32_MOD`, and `jiffies` arithmetic is taken modulo `ULONG_MOD`.
* Values the driver reads from its environment (`jiffies`, `cpu_clock`,
  `mmc_gpio_get_cd`, the global `sec_sdcard_cmd_dev`) are explicit arguments.
* `schedule_work(&sdi.noti_work)` is recorded by counting the calls in the
  ghost field `noti_work_scheduled`.
* `pr_info` / `pr_err` have no effect on the modelled state and are left out.
-/

namespace MmcSec

/-! ## Constants -/

/-- Errno `EILSEQ` of `include/uapi/asm-generic/errno.h`. -/
def EILSEQ : Int := 84

/-- Errno `ETIMEDOUT` of `include/uapi/asm-generic/errno.h`. -/
def ETIMEDOUT : Int := 110

/-- Largest value of a C `unsigned int` (32 bits). -/
def UINT_MAX : Nat := 4294967295

/-- Modulus of `u32` arithmetic, `2 ^ 32`. -/
def U32_MOD : Nat := 4294967296

/-- Modulus of `unsigned long` arithmetic on the 64-bit target, `2 ^ 64`. -/
def ULONG_MOD : Nat := 18446744073709551616

/-- Half of `ULONG_MOD`: an `unsigned long` at or above it is negative as a `long`. -/
def LONG_SIGN : Nat := 9223372036854775808

/-- Card status bit 31, `R1_OUT_OF_RANGE` of `include/linux/mmc/mmc.h`. -/
def R1_OUT_OF_RANGE : Nat := 2147483648

/-- Card status bit 26, `R1_WP_VIOLATION`. -/
def R1_WP_VIOLATION : Nat := 67108864

/-- Card status bit 21, `R1_CARD_ECC_FAILED`. -/
def R1_CARD_ECC_FAILED : Nat := 2097152

/-- Card status bit 20, `R1_CC_ERROR`. -/
def R1_CC_ERROR : Nat := 1048576

/-- Card status bit 19, `R1_ERROR`. -/
def R1_ERROR : Nat := 524288

/-- Card status bit 8, `R1_READY_FOR_DATA`. -/
def R1_READY_FOR_DATA : Nat := 256

/-- The macro `R1_CURRENT_STATE(x)`, `(x & 0x00001E00) >> 9`. -/
def R1_CURRENT_STATE (x : Nat) : Nat := (x &&& 0x00001E00) >>> 9

/-- Card state `R1_STATE_TRAN`. -/
def R1_STATE_TRAN : Nat := 4

/-- Card state `R1_STATE_PRG`. -/
def R1_STATE_PRG : Nat := 7

/-- Opcode `MMC_SEND_STATUS` (CMD13). -/
def MMC_SEND_STATUS : Nat := 13

/-- Opcode `MMC_SEND_TUNING_BLOCK` (CMD19). -/
def MMC_SEND_TUNING_BLOCK : Nat := 19

/-- Opcode `MMC_SEND_TUNING_BLOCK_HS200` (CMD21). -/
def MMC_SEND_TUNING_BLOCK_HS200 : Nat := 21

/-- Opcode `MMC_APP_CMD` (CMD55). -/
def MMC_APP_CMD : Nat := 55

/-- Command flag `MMC_RSP_PRESENT`, `1 << 0`. -/
def MMC_RSP_PRESENT : Nat := 1

/-- Command flag `MMC_RSP_136`, `1 << 1`. -/
def MMC_RSP_136 : Nat := 2

/-- Command flag `MMC_CMD_BC`, `2 << 5`. -/
def MMC_CMD_BC : Nat := 64

/-- Card type `MMC_TYPE_SD`. -/
def MMC_TYPE_SD : Nat := 1

/-- Modelled from the spec: `MAX_ERR_TYPE_INDEX` of the header `mmc-sec-feature.h`, which is
not among the sources. The table holds two canonical error kinds per phase (spec section 3,
and the comment in `mmc_sd_sec_init_err_count`). -/
def MAX_ERR_TYPE_INDEX : Nat := 2

/-- Modelled from the spec: `MAX_REQ_TYPE_INDEX` of the missing header, the number of phases
(`req_types` has the five entries sbc, cmd, data, stop, busy). -/
def MAX_REQ_TYPE_INDEX : Nat := 5

/-- Modelled from the spec: `MAX_LOG_INDEX` of the missing header, the table length
"(number of phases) x 2". -/
def MAX_LOG_INDEX : Nat := MAX_REQ_TYPE_INDEX * MAX_ERR_TYPE_INDEX

/-- Modelled from the spec: `SD_SBC_OFFSET` of the missing header; slot 0 is the first
sbc slot by the comment in `mmc_sd_sec_init_err_count`. -/
def SD_SBC_OFFSET : Nat := 0

/-- Modelled from the spec: `SD_CMD_OFFSET` of the missing header (second phase of `req_types`). -/
def SD_CMD_OFFSET : Nat := SD_SBC_OFFSET + MAX_ERR_TYPE_INDEX

/-- Modelled from the spec: `SD_DATA_OFFSET` of the missing header (third phase). -/
def SD_DATA_OFFSET : Nat := SD_CMD_OFFSET + MAX_ERR_TYPE_INDEX

/-- Modelled from the spec: `SD_STOP_OFFSET` of the missing header (fourth phase). -/
def SD_STOP_OFFSET : Nat := SD_DATA_OFFSET + MAX_ERR_TYPE_INDEX

/-- Modelled from the spec: `SD_BUSY_OFFSET` of the missing header (fifth phase). -/
def SD_BUSY_OFFSET : Nat := SD_STOP_OFFSET + MAX_ERR_TYPE_INDEX

/-- Modelled from the spec: `STATUS_MASK` of the missing header, the five error bits the
status classifier looks at (spec section 4.1). -/
def STATUS_MASK : Nat :=
  R1_ERROR ||| R1_CC_ERROR ||| R1_CARD_ECC_FAILED ||| R1_WP_VIOLATION ||| R1_OUT_OF_RANGE

/-- The constant `MMC_BLK_TIMEOUT_MS`, `9 * 1000`. -/
def MMC_BLK_TIMEOUT_MS : Nat := 9 * 1000

/-! ## Data model -/

/-- Modelled from the spec: `struct mmc_sd_sec_err_info` of the missing header, one slot
of the error log: phase label, canonical error code, 32-bit status snapshot, two 64-bit
timestamps and an unsigned 32-bit count. -/
structure mmc_sd_sec_err_info where
  type : String
  err_type : Int
  status : Nat
  first_issue_time : Nat
  last_issue_time : Nat
  count : Nat
deriving DecidableEq, Repr

/-- Modelled from the spec: `struct mmc_sd_sec_status_err_info` of the missing header, six
unsigned counters. They are taken to be 32 bits wide, as `card_detect_cnt` (compared with
`UINT_MAX`) and `noti_cnt` (printed with `%d`) are. -/
structure mmc_sd_sec_status_err_info where
  ge_cnt : Nat
  cc_cnt : Nat
  ecc_cnt : Nat
  wp_cnt : Nat
  oor_cnt : Nat
  noti_cnt : Nat
deriving DecidableEq, Repr

/-- Modelled from the spec: `struct mmc_sd_sec_device_info` of the missing header, the type
of the global `sdi`, restricted to the fields the modelled functions use.
`noti_work_scheduled` is a ghost field counting the `schedule_work(&sdi.noti_work)` calls. -/
structure mmc_sd_sec_device_info where
  card_detect_cnt : Nat
  tstamp_last_cmd : Nat
  tray_status : Bool
  err_info : List mmc_sd_sec_err_info
  status_err : mmc_sd_sec_status_err_info
  noti_work_scheduled : Nat
deriving DecidableEq, Repr

/-- The fields of `struct mmc_card` the driver reads. -/
structure mmc_card where
  type : Nat
deriving DecidableEq, Repr

/-- The fields of `struct mmc_host` the driver reads or writes; `card` is `none` for a
NULL pointer. -/
structure mmc_host where
  card : Option mmc_card
  unused : Nat
deriving DecidableEq, Repr

/-- The fields of `struct mmc_command` the driver reads; `resp0` is `resp[0]`. -/
structure mmc_command where
  opcode : Nat
  flags : Nat
  error : Int
  resp0 : Nat
deriving DecidableEq, Repr

/-- The field of `struct mmc_data` the driver reads. -/
structure mmc_data where
  error : Int
deriving DecidableEq, Repr

/-- The fields of `struct mmc_request` the driver reads; `none` is a NULL pointer. -/
structure mmc_request where
  cmd : Option mmc_command
  sbc : Option mmc_command
  data : Option mmc_data
  stop : Option mmc_command
deriving DecidableEq, Repr

/-- What one request completion reads from outside `sdi`: the three reads of `jiffies`
(in `mmc_sd_sec_check_req_err`, in `mmc_sd_sec_check_busy_stuck` and when the timestamp
is reset in `mmc_sd_sec_log_err_count`), the kernel helper `msecs_to_jiffies`, the values
that the first and, if it is made, the second `cpu_clock(cpu)` call of each
`mmc_sd_sec_inc_err_count` invocation return (indexed by the phase offset of the
invocation), and whether the global `sec_sdcard_cmd_dev` is non-NULL. -/
structure Env where
  jiffies_cmd : Nat
  jiffies_chk : Nat
  jiffies_upd : Nat
  msecs_to_jiffies : Nat → Nat
  cpu_clock : Nat → Nat × Nat
  sec_sdcard_cmd_dev : Bool

/-! ## Operations -/

/-- The macro `mmc_card_sd(card)`. -/
def mmc_card_sd (card : mmc_card) : Bool :=
  card.type == MMC_TYPE_SD

/-- The body of `sd_sec_sdcard_uevent`: the value of the `IOERROR` variable, from whether
`host->card` is set and the status counters. -/
def sd_sec_sdcard_uevent (host : mmc_host) (sdi : mmc_sd_sec_device_info) : String :=
  let status_err := sdi.status_err
  let card_exist := host.card.isSome
  if card_exist then
    if (status_err.ge_cnt ≠ 0 ∧ status_err.ge_cnt % 1000 = 0) ∨
       (status_err.ecc_cnt ≠ 0 ∧ status_err.ecc_cnt % 1000 = 0) ∨
       (status_err.wp_cnt ≠ 0 ∧ status_err.wp_cnt % 100 = 0) ∨
       (status_err.oor_cnt ≠ 0 ∧ status_err.oor_cnt % 100 = 0)
    then "YES" else "NO"
  else "NoCard"

/-- The counter part of `mmc_sd_sec_inc_status_err`: the five tests on the status word in
source order, returning the updated counters and the local flag `noti`. -/
def mmc_sd_sec_inc_status_err_counters (status_err : mmc_sd_sec_status_err_info)
    (status : Nat) : mmc_sd_sec_status_err_info × Bool :=
  let noti := false
  let (status_err, noti) :=
    if status &&& R1_ERROR ≠ 0 then
      let status_err := { status_err with ge_cnt := (status_err.ge_cnt + 1) % U32_MOD }
      (status_err, if status_err.ge_cnt % 1000 = 0 then true else noti)
    else (status_err, noti)
  let status_err :=
    if status &&& R1_CC_ERROR ≠ 0 then
      { status_err with cc_cnt := (status_err.cc_cnt + 1) % U32_MOD }
    else status_err
  let (status_err, noti) :=
    if status &&& R1_CARD_ECC_FAILED ≠ 0 then
      let status_err := { status_err with ecc_cnt := (status_err.ecc_cnt + 1) % U32_MOD }
      (status_err, if status_err.ecc_cnt % 1000 = 0 then true else noti)
    else (status_err, noti)
  let (status_err, noti) :=
    if status &&& R1_WP_VIOLATION ≠ 0 then
      let status_err := { status_err with wp_cnt := (status_err.wp_cnt + 1) % U32_MOD }
      (status_err, if status_err.wp_cnt % 100 = 0 then true else noti)
    else (status_err, noti)
  let (status_err, noti) :=
    if status &&& R1_OUT_OF_RANGE ≠ 0 then
      let status_err := { status_err with oor_cnt := (status_err.oor_cnt + 1) % U32_MOD }
      (status_err, if status_err.oor_cnt % 100 = 0 then true else noti)
    else (status_err, noti)
  (status_err, noti)

/-- The function `mmc_sd_sec_inc_status_err`: updates the counters, then calls
`schedule_work` when `noti && mmc_card_sd(card) && sec_sdcard_cmd_dev`. -/
def mmc_sd_sec_inc_status_err (sec_sdcard_cmd_dev : Bool) (card : mmc_card) (status : Nat)
    (sdi : mmc_sd_sec_device_info) : mmc_sd_sec_device_info :=
  let r := mmc_sd_sec_inc_status_err_counters sdi.status_err status
  let sdi := { sdi with status_err := r.1 }
  if r.2 && mmc_card_sd card && sec_sdcard_cmd_dev then
    { sdi with noti_work_scheduled := sdi.noti_work_scheduled + 1 }
  else sdi

/-- The search loop of `mmc_sd_sec_inc_err_count`,
`for (i = 0; i < MAX_ERR_TYPE_INDEX; i++) if (err_log[index + i].err_type == error) ...`,
started at `i` with `fuel` iterations left. Returns the final `(index, i)`. A read past
the end of the table compares as different. -/
def mmc_sd_sec_inc_err_count_search (err_log : List mmc_sd_sec_err_info) (index : Nat)
    (error : Int) : Nat → Nat → Nat × Nat
  | 0, i => (index, i)
  | fuel + 1, i =>
    if i < MAX_ERR_TYPE_INDEX then
      if (err_log[index + i]?).map (fun e => e.err_type) = some error then
        (index + i, i)
      else mmc_sd_sec_inc_err_count_search err_log index error fuel (i + 1)
    else (index, i)

/-- The statements of `mmc_sd_sec_inc_err_count` after the slot has been found, on that
slot `e = err_log[index]`: status snapshot, first and last issue time, `count++`.
`clk.1` is the value the first `cpu_clock(cpu)` call of the invocation returns and `clk.2`
the value a second call returns. The source calls `cpu_clock` for `first_issue_time` only
when that field is 0, and then once more for `last_issue_time`, which gets `clk.2`; when
`first_issue_time` is already set, the call for `last_issue_time` is the only one and it
gets `clk.1`. -/
def mmc_sd_sec_inc_err_count_update (e : mmc_sd_sec_err_info) (status : Nat)
    (clk : Nat × Nat) : mmc_sd_sec_err_info :=
  let e :=
    if e.status = 0 ∨ (R1_CURRENT_STATE status) &&& R1_STATE_TRAN = 0 then
      { e with status := status }
    else e
  let r :=
    if e.first_issue_time = 0 then ({ e with first_issue_time := clk.1 }, clk.2)
    else (e, clk.1)
  let e := { r.1 with last_issue_time := r.2 }
  { e with count := (e.count + 1) % U32_MOD }

/-- The function `mmc_sd_sec_inc_err_count`, on the table `sdi.err_info`. `clk` holds the
values the first and, if it is made, the second `cpu_clock(cpu)` call return. -/
def mmc_sd_sec_inc_err_count (index : Nat) (error : Int) (status : Nat) (clk : Nat × Nat)
    (err_log : List mmc_sd_sec_err_info) : List mmc_sd_sec_err_info :=
  if error = 0 then err_log
  else
    let error := if error ≠ -EILSEQ then -ETIMEDOUT else error
    let r := mmc_sd_sec_inc_err_count_search err_log index error MAX_ERR_TYPE_INDEX 0
    let index := r.1
    let i := r.2
    if i ≥ MAX_ERR_TYPE_INDEX then err_log
    else
      match err_log[index]? with
      | none => err_log
      | some e => err_log.set index (mmc_sd_sec_inc_err_count_update e status clk)

/-- The macro `time_before(a, b)`, `(long)((a) - (b)) < 0` on `unsigned long`. -/
def time_before (a b : Nat) : Bool :=
  decide (LONG_SIGN ≤ (a % ULONG_MOD + ULONG_MOD - b % ULONG_MOD) % ULONG_MOD)

/-- The function `mmc_sd_sec_check_busy_stuck`; `jiffies` is the value read,
`timeout` is `msecs_to_jiffies(MMC_BLK_TIMEOUT_MS)`. -/
def mmc_sd_sec_check_busy_stuck (tstamp_last_cmd jiffies timeout status : Nat) : Bool :=
  if time_before jiffies ((tstamp_last_cmd + timeout) % ULONG_MOD) then false
  else if status ≠ 0 ∧
      (status &&& R1_READY_FOR_DATA = 0 ∨ R1_CURRENT_STATE status = R1_STATE_PRG) then true
  else false

/-- The status word of `mmc_sd_sec_log_err_count`: the `resp[0]` of sbc, stop and cmd,
or-ed together. -/
def mrq_status (mrq : mmc_request) (cmd : mmc_command) : Nat :=
  (match mrq.sbc with | some sbc => sbc.resp0 | none => 0) |||
  (match mrq.stop with | some stop => stop.resp0 | none => 0) |||
  cmd.resp0

/-- The function `mmc_sd_sec_log_err_count`. `cmd` is `*mrq->cmd`, which the only caller
has checked to be non-NULL. -/
def mmc_sd_sec_log_err_count (env : Env) (card : mmc_card) (mrq : mmc_request)
    (cmd : mmc_command) (sdi : mmc_sd_sec_device_info) : mmc_sd_sec_device_info :=
  let status := mrq_status mrq cmd
  let sdi :=
    if status &&& STATUS_MASK ≠ 0 then
      mmc_sd_sec_inc_status_err env.sec_sdcard_cmd_dev card status sdi
    else sdi
  let sdi :=
    if cmd.error ≠ 0 then
      { sdi with
          err_info := mmc_sd_sec_inc_err_count SD_CMD_OFFSET cmd.error status
            (env.cpu_clock SD_CMD_OFFSET) sdi.err_info }
    else sdi
  let sdi :=
    match mrq.sbc with
    | some sbc =>
      if sbc.error ≠ 0 then
        { sdi with
          err_info := mmc_sd_sec_inc_err_count SD_SBC_OFFSET sbc.error status
            (env.cpu_clock SD_SBC_OFFSET) sdi.err_info }
      else sdi
    | none => sdi
  let sdi :=
    match mrq.data with
    | some data =>
      if data.error ≠ 0 then
        { sdi with
          err_info := mmc_sd_sec_inc_err_count SD_DATA_OFFSET data.error status
            (env.cpu_clock SD_DATA_OFFSET) sdi.err_info }
      else sdi
    | none => sdi
  let sdi :=
    match mrq.stop with
    | some stop =>
      if stop.error ≠ 0 then
        { sdi with
          err_info := mmc_sd_sec_inc_err_count SD_STOP_OFFSET stop.error status
            (env.cpu_clock SD_STOP_OFFSET) sdi.err_info }
      else sdi
    | none => sdi
  if cmd.opcode ≠ MMC_SEND_STATUS then sdi
  else if mmc_sd_sec_check_busy_stuck sdi.tstamp_last_cmd env.jiffies_chk
      (env.msecs_to_jiffies MMC_BLK_TIMEOUT_MS) status then
    { sdi with
        err_info := mmc_sd_sec_inc_err_count SD_BUSY_OFFSET (-ETIMEDOUT) status
          (env.cpu_clock SD_BUSY_OFFSET) sdi.err_info
        tstamp_last_cmd := env.jiffies_upd }
  else sdi

/-- The loop of `mmc_sd_sec_clear_err_count` over the table, started at `i` with `fuel`
iterations left. -/
def mmc_sd_sec_clear_err_count_loop (err_log : List mmc_sd_sec_err_info) :
    Nat → Nat → List mmc_sd_sec_err_info
  | 0, _ => err_log
  | fuel + 1, i =>
    let err_log :=
      match err_log[i]? with
      | some e =>
        err_log.set i
          { e with status := 0, first_issue_time := 0, last_issue_time := 0, count := 0 }
      | none => err_log
    mmc_sd_sec_clear_err_count_loop err_log fuel (i + 1)

/-- The function `mmc_sd_sec_clear_err_count`: clears the table for `i < MAX_LOG_INDEX`
and zeroes the status counters (`memset`). -/
def mmc_sd_sec_clear_err_count (sdi : mmc_sd_sec_device_info) : mmc_sd_sec_device_info :=
  { sdi with
      err_info := mmc_sd_sec_clear_err_count_loop sdi.err_info MAX_LOG_INDEX 0
      status_err := ⟨0, 0, 0, 0, 0, 0⟩ }

/-- The array `req_types` of `mmc_sd_sec_init_err_count`. -/
def req_types : List String := ["sbc  ", "cmd  ", "data ", "stop ", "busy "]

/-- The loop of `mmc_sd_sec_init_err_count`, started at `i` with `fuel` iterations left.
`snprintf` with size 5 stores at most four characters of the label. -/
def mmc_sd_sec_init_err_count_loop (err_log : List mmc_sd_sec_err_info) :
    Nat → Nat → List mmc_sd_sec_err_info
  | 0, _ => err_log
  | fuel + 1, i =>
    let err_log :=
      match err_log[i]? with
      | some e =>
        err_log.set i
          { e with
              type := (req_types.getD (i / MAX_ERR_TYPE_INDEX) "").take 4
              err_type := if i % MAX_ERR_TYPE_INDEX = 0 then -EILSEQ else -ETIMEDOUT }
      | none => err_log
    mmc_sd_sec_init_err_count_loop err_log fuel (i + 1)

/-- The function `mmc_sd_sec_init_err_count`. -/
def mmc_sd_sec_init_err_count (sdi : mmc_sd_sec_device_info) : mmc_sd_sec_device_info :=
  { sdi with err_info := mmc_sd_sec_init_err_count_loop sdi.err_info MAX_LOG_INDEX 0 }

/-- The function `sd_sec_card_event`. `host` is `none` for a NULL pointer and `cd` is the
value returned by `mmc_gpio_get_cd(host)`; the host is returned with `sdi` because the
function writes `host->unused`. -/
def sd_sec_card_event (host : Option mmc_host) (cd : Int) (sdi : mmc_sd_sec_device_info) :
    Option mmc_host × mmc_sd_sec_device_info :=
  match host with
  | none => (none, sdi)
  | some host =>
    let status : Bool := if cd ≠ 0 then true else false
    if xor status sdi.tray_status then
      let sdi := { sdi with tray_status := status }
      let sdi :=
        if sdi.card_detect_cnt < UINT_MAX then
          { sdi with card_detect_cnt := sdi.card_detect_cnt + 1 }
        else sdi
      let host := { host with unused := 0 }
      (some host, mmc_sd_sec_clear_err_count sdi)
    else (some host, sdi)

/-- The function `mmc_sd_sec_check_cmd_type`, on `*mrq->cmd`. -/
def mmc_sd_sec_check_cmd_type (cmd : mmc_command) : Bool :=
  if cmd.flags &&& MMC_RSP_PRESENT = 0 then false
  else if cmd.flags &&& MMC_CMD_BC ≠ 0 then false
  else if cmd.flags &&& MMC_RSP_136 ≠ 0 ∨ cmd.opcode = MMC_APP_CMD then false
  else true

/-- The function `mmc_sd_sec_check_req_err`; `mrq` is `none` for a NULL pointer. -/
def mmc_sd_sec_check_req_err (env : Env) (host : mmc_host) (mrq : Option mmc_request)
    (sdi : mmc_sd_sec_device_info) : mmc_sd_sec_device_info :=
  match host.card, mrq with
  | some card, some mrq =>
    match mrq.cmd with
    | none => sdi
    | some cmd =>
      if cmd.opcode = MMC_SEND_TUNING_BLOCK ∨ cmd.opcode = MMC_SEND_TUNING_BLOCK_HS200 then
        sdi
      else
        let sdi :=
          if cmd.opcode ≠ MMC_SEND_STATUS then { sdi with tstamp_last_cmd := env.jiffies_cmd }
          else sdi
        if mmc_sd_sec_check_cmd_type cmd then mmc_sd_sec_log_err_count env card mrq cmd sdi
        else sdi
  | _, _ => sdi

/-! ## Observations and event sequences used by the theorems -/

/-- The `count` field of slot `i` of the table (0 for an index outside the table). -/
def count_at (err_log : List mmc_sd_sec_err_info) (i : Nat) : Nat :=
  match err_log[i]? with
  | some e => e.count
  | none => 0

/-- The `err_type` column written by `mmc_sd_sec_init_err_count`: `-EILSEQ` at the even
indices and `-ETIMEDOUT` at the odd ones, for `MAX_LOG_INDEX` slots. -/
def init_err_types : List Int :=
  (List.range MAX_LOG_INDEX).map
    (fun i => if i % MAX_ERR_TYPE_INDEX = 0 then -EILSEQ else -ETIMEDOUT)

/-- An initialised error table: it has the `MAX_LOG_INDEX` slots of `sdi.err_info` and
their `err_type` fields are the ones `mmc_sd_sec_init_err_count` stores. -/
def table_initialised (err_log : List mmc_sd_sec_err_info) : Prop :=
  err_log.map (fun e => e.err_type) = init_err_types

instance (err_log : List mmc_sd_sec_err_info) : Decidable (table_initialised err_log) := by
  unfold table_initialised
  infer_instance

/-- The five phase offsets passed to `mmc_sd_sec_inc_err_count`. -/
def phase_offsets : List Nat :=
  [SD_SBC_OFFSET, SD_CMD_OFFSET, SD_DATA_OFFSET, SD_STOP_OFFSET, SD_BUSY_OFFSET]

/-- A run of `mmc_sd_sec_inc_status_err` over a list of status words, in order. -/
def run_status_events (sec_sdcard_cmd_dev : Bool) (card : mmc_card) (statuses : List Nat)
    (sdi : mmc_sd_sec_device_info) : mmc_sd_sec_device_info :=
  statuses.foldl (fun s status => mmc_sd_sec_inc_status_err sec_sdcard_cmd_dev card status s) sdi

/-- One request completion: the arguments of a `mmc_sd_sec_check_req_err` call and what
the call reads from its environment. -/
structure req_event where
  env : Env
  host : mmc_host
  mrq : Option mmc_request

/-- A run of `mmc_sd_sec_check_req_err` over a list of request completions, in order. -/
def run_requests (evs : List req_event) (sdi : mmc_sd_sec_device_info) :
    mmc_sd_sec_device_info :=
  evs.foldl (fun s ev => mmc_sd_sec_check_req_err ev.env ev.host ev.mrq s) sdi

/-- The `error` field behind an optional command pointer, 0 for NULL. -/
def cmd_error (cmd : Option mmc_command) : Int :=
  match cmd with
  | some c => c.error
  | none => 0

/-- The `error` field behind an optional data pointer, 0 for NULL. -/
def data_error (data : Option mmc_data) : Int :=
  match data with
  | some d => d.error
  | none => 0

/-- Every phase of the request (cmd, sbc, data, stop) completed with error code 0. -/
def req_errors_zero (mrq : mmc_request) : Prop :=
  cmd_error mrq.cmd = 0 ∧ cmd_error mrq.sbc = 0 ∧ data_error mrq.data = 0 ∧
    cmd_error mrq.stop = 0

instance (mrq : mmc_request) : Decidable (req_errors_zero mrq) := by
  unfold req_errors_zero
  infer_instance

/-- The combined status word of a request completion, 0 when there is no command. -/
def req_event_status (ev : req_event) : Nat :=
  match ev.mrq with
  | some mrq =>
    match mrq.cmd with
    | some cmd => mrq_status mrq cmd
    | none => 0
  | none => 0

/-- The opcode of a request completion, if it has a command. -/
def req_event_opcode (ev : req_event) : Option Nat :=
  match ev.mrq with
  | some mrq => mrq.cmd.map (fun c => c.opcode)
  | none => none

/-- The request completion is a status poll that `mmc_sd_sec_check_busy_stuck` flags in
the state `sdi`. -/
def flagged_busy_stuck (ev : req_event) (sdi : mmc_sd_sec_device_info) : Bool :=
  decide (req_event_opcode ev = some MMC_SEND_STATUS) &&
    mmc_sd_sec_check_busy_stuck sdi.tstamp_last_cmd ev.env.jiffies_chk
      (ev.env.msecs_to_jiffies MMC_BLK_TIMEOUT_MS) (req_event_status ev)

/-- No request completion of the run is flagged busy-stuck in the state it meets. -/
def never_busy_stuck : List req_event → mmc_sd_sec_device_info → Bool
  | [], _ => true
  | ev :: evs, sdi =>
    !flagged_busy_stuck ev sdi &&
      never_busy_stuck evs (mmc_sd_sec_check_req_err ev.env ev.host ev.mrq sdi)

/-- One card-detect event: the arguments of a `sd_sec_card_event` call, the host pointer
and the value `mmc_gpio_get_cd` returns. -/
structure card_event where
  host : Option mmc_host
  cd : Int

/-- A run of `sd_sec_card_event` over a list of card-detect events, in order. -/
def run_card_events (evs : List card_event) (sdi : mmc_sd_sec_device_info) :
    mmc_sd_sec_device_info :=
  evs.foldl (fun s ev => (sd_sec_card_event ev.host ev.cd s).2) sdi

/-- The presence value `sd_sec_card_event` derives from `mmc_gpio_get_cd`. -/
def presence (cd : Int) : Bool :=
  if cd ≠ 0 then true else false

/-- The number of `jiffies` ticks from `tstamp` to `now`, as `unsigned long` subtraction. -/
def jiffies_elapsed (now tstamp : Nat) : Nat :=
  (now % ULONG_MOD + ULONG_MOD - tstamp % ULONG_MOD) % ULONG_MOD

/-- The global `sdi` as the C runtime creates it: static storage, all fields zero, with
the `MAX_LOG_INDEX` slots of `err_info`. -/
def sdi_zero : mmc_sd_sec_device_info :=
  { card_detect_cnt := 0
    tstamp_last_cmd := 0
    tray_status := false
    err_info := List.replicate MAX_LOG_INDEX ⟨"", 0, 0, 0, 0, 0⟩
    status_err := ⟨0, 0, 0, 0, 0, 0⟩
    noti_work_scheduled := 0 }

/-- The global `sdi` after `mmc_sd_sec_init_err_count`, as `sd_sec_set_features` leaves the
error table. -/
def sdi_boot : mmc_sd_sec_device_info :=
  mmc_sd_sec_init_err_count sdi_zero

/-- First block of `mmc_sd_sec_log_err_count`: the call of `mmc_sd_sec_inc_status_err`
guarded by `status & STATUS_MASK`. -/
def log_stage_status (env : Env) (card : mmc_card) (status : Nat)
    (sdi : mmc_sd_sec_device_info) : mmc_sd_sec_device_info :=
  if status &&& STATUS_MASK ≠ 0 then
    mmc_sd_sec_inc_status_err env.sec_sdcard_cmd_dev card status sdi
  else sdi

/-- One of the four guarded calls `if (error) mmc_sd_sec_inc_err_count(offset, error, status)`
of `mmc_sd_sec_log_err_count`; for `error = 0` the callee returns at once. -/
def log_stage_error (env : Env) (status offset : Nat) (error : Int)
    (sdi : mmc_sd_sec_device_info) : mmc_sd_sec_device_info :=
  { sdi with
      err_info := mmc_sd_sec_inc_err_count offset error status (env.cpu_clock offset)
        sdi.err_info }

/-- Last block of `mmc_sd_sec_log_err_count`: the busy-stuck check of a status poll. -/
def log_stage_busy (env : Env) (status : Nat) (cmd : mmc_command)
    (sdi : mmc_sd_sec_device_info) : mmc_sd_sec_device_info :=
  if cmd.opcode ≠ MMC_SEND_STATUS then sdi
  else if mmc_sd_sec_check_busy_stuck sdi.tstamp_last_cmd env.jiffies_chk
      (env.msecs_to_jiffies MMC_BLK_TIMEOUT_MS) status then
    { sdi with
        err_info := mmc_sd_sec_inc_err_count SD_BUSY_OFFSET (-ETIMEDOUT) status
          (env.cpu_clock SD_BUSY_OFFSET) sdi.err_info
        tstamp_last_cmd := env.jiffies_upd }
  else sdi


/-- Every phase of the request completion finished with error code 0 (vacuous for a NULL
request). -/
def req_event_errors_zero (ev : req_event) : Prop :=
  match ev.mrq with
  | some mrq => req_errors_zero mrq
  | none => True

instance (ev : req_event) : Decidable (req_event_errors_zero ev) := by
  unfold req_event_errors_zero
  split <;> infer_instance

/-- An environment for examples: `HZ = 250`, so `msecs_to_jiffies(m) = m / 4`, every read
of `jiffies` returns `now`, the first `cpu_clock` call of an invocation returns `now` and
a second one `now + 1`, and the notification device is registered. -/
def example_env (now : Nat) : Env :=
  { jiffies_cmd := now
    jiffies_chk := now
    jiffies_upd := now
    msecs_to_jiffies := fun m => m / 4
    cpu_clock := fun _ => (now, now + 1)
    sec_sdcard_cmd_dev := true }

/-- A host with an SD card attached. -/
def example_host : mmc_host :=
  { card := some ⟨MMC_TYPE_SD⟩, unused := 0 }

/-- A request of one command and nothing else. -/
def example_request (cmd : mmc_command) : mmc_request :=
  { cmd := some cmd, sbc := none, data := none, stop := none }

/-- A successful single-block read (CMD17, R1 response, ADTC) whose response carries
`R1_ERROR` with the card ready and in the transfer state. -/
def example_read_with_error_bit : mmc_command :=
  { opcode := 17, flags := 53, error := 0, resp0 := R1_ERROR ||| 2048 ||| R1_READY_FOR_DATA }

/-- A successful status poll (CMD13, R1 response, AC) whose response shows the card in the
programming state and not ready for data. -/
def example_poll_prg : mmc_command :=
  { opcode := MMC_SEND_STATUS, flags := 21, error := 0, resp0 := 3584 }


/-- The function `sd_sec_sdcard_noti_work`. `host` is `*cdi->mmc` and `uevent_ret` is the
value the call `kobject_uevent(&sec_sdcard_cmd_dev->kobj, KOBJ_CHANGE)` returns. The result
is the new `sdi` and the number of `kobject_uevent` calls made; a non-zero return value
only reaches `pr_err`. -/
def sd_sec_sdcard_noti_work (host : mmc_host) (uevent_ret : Int)
    (sdi : mmc_sd_sec_device_info) : mmc_sd_sec_device_info × Nat :=
  match host.card with
  | none => (sdi, 0)
  | some _ =>
    let sdi :=
      { sdi with
          status_err :=
            { sdi.status_err with noti_cnt := (sdi.status_err.noti_cnt + 1) % U32_MOD } }
    if uevent_ret ≠ 0 then (sdi, 1) else (sdi, 1)


/-- A run of increments of one slot: lines 132-139 of `mmc_sd_sec_inc_err_count` applied to
the slot once per element `(status, clk)` of the list, in order. -/
def run_slot_updates (e : mmc_sd_sec_err_info) (incs : List (Nat × (Nat × Nat))) :
    mmc_sd_sec_err_info :=
  incs.foldl (fun e inc => mmc_sd_sec_inc_err_count_update e inc.1 inc.2) e


/-- An event of a driver session after attach: a request completion or a card-detect
event. -/
inductive session_event where
  | request (ev : req_event)
  | card (ev : card_event)

/-- One step of a session: `mmc_sd_sec_check_req_err` or `sd_sec_card_event`. -/
def session_step (sdi : mmc_sd_sec_device_info) (ev : session_event) :
    mmc_sd_sec_device_info :=
  match ev with
  | .request r => mmc_sd_sec_check_req_err r.env r.host r.mrq sdi
  | .card c => (sd_sec_card_event c.host c.cd sdi).2

/-- A run of request completions and card-detect events, in order. -/
def run_session (evs : List session_event) (sdi : mmc_sd_sec_device_info) :
    mmc_sd_sec_device_info :=
  evs.foldl session_step sdi

/-- The error code as `mmc_sd_sec_inc_err_count` normalises it before the search:
everything but `-EILSEQ` becomes `-ETIMEDOUT`. -/
def normalised_error (error : Int) : Int :=
  if error ≠ -EILSEQ then -ETIMEDOUT else error

/-- Command flag mask `MMC_CMD_MASK`, `3 << 5`. -/
def MMC_CMD_MASK : Nat := 96

/-- Command type `MMC_CMD_AC`, `0 << 5`. -/
def MMC_CMD_AC : Nat := 0

/-- Command type `MMC_CMD_ADTC`, `1 << 5`. -/
def MMC_CMD_ADTC : Nat := 32

/-- Command type `MMC_CMD_BCR`, `3 << 5`. -/
def MMC_CMD_BCR : Nat := 96


/-- An event inside one epoch (no card-detect transition): a request completion or a run of
the notification task, given the host `sdi.mmc` points to and what `kobject_uevent`
returns. -/
inductive epoch_event where
  | request (ev : req_event)
  | noti_work (host : mmc_host) (uevent_ret : Int)

/-- One step of an epoch: `mmc_sd_sec_check_req_err` or `sd_sec_sdcard_noti_work`. -/
def epoch_step (sdi : mmc_sd_sec_device_info) (ev : epoch_event) :
    mmc_sd_sec_device_info :=
  match ev with
  | .request r => mmc_sd_sec_check_req_err r.env r.host r.mrq sdi
  | .noti_work host ret => (sd_sec_sdcard_noti_work host ret sdi).1

/-- A run of request completions and notification-task runs, in order. -/
def run_epoch (evs : List epoch_event) (sdi : mmc_sd_sec_device_info) :
    mmc_sd_sec_device_info :=
  evs.foldl epoch_step sdi

/-- All counters of `sdi` under one numbering: 0 to 5 are `ge_cnt`, `cc_cnt`, `ecc_cnt`,
`wp_cnt`, `oor_cnt`, `noti_cnt`, and `6 + j` is the count of error-log slot `j`. -/
def counter_value (sdi : mmc_sd_sec_device_info) : Nat → Nat
  | 0 => sdi.status_err.ge_cnt
  | 1 => sdi.status_err.cc_cnt
  | 2 => sdi.status_err.ecc_cnt
  | 3 => sdi.status_err.wp_cnt
  | 4 => sdi.status_err.oor_cnt
  | 5 => sdi.status_err.noti_cnt
  | j + 6 => count_at sdi.err_info j


/-! ## Auxiliary lemmas -/

theorem init_err_types_eq :
    init_err_types = [-84, -110, -84, -110, -84, -110, -84, -110, -84, -110] := by
  decide

theorem table_initialised_cases (t : List mmc_sd_sec_err_info) (h : table_initialised t) :
    ∃ e0 e1 e2 e3 e4 e5 e6 e7 e8 e9 : mmc_sd_sec_err_info,
      t = [e0, e1, e2, e3, e4, e5, e6, e7, e8, e9] ∧
      e0.err_type = -84 ∧ e1.err_type = -110 ∧ e2.err_type = -84 ∧ e3.err_type = -110 ∧
      e4.err_type = -84 ∧ e5.err_type = -110 ∧ e6.err_type = -84 ∧ e7.err_type = -110 ∧
      e8.err_type = -84 ∧ e9.err_type = -110 := by
  unfold table_initialised at h
  rw [init_err_types_eq] at h
  simp only [List.map_eq_cons_iff, List.map_eq_nil_iff] at h
  obtain ⟨e0, t, rfl, h0, e1, t, rfl, h1, e2, t, rfl, h2, e3, t, rfl, h3, e4, t, rfl, h4,
    e5, t, rfl, h5, e6, t, rfl, h6, e7, t, rfl, h7, e8, t, rfl, h8, e9, t, rfl, h9, rfl⟩ := h
  exact ⟨e0, e1, e2, e3, e4, e5, e6, e7, e8, e9, rfl, h0, h1, h2, h3, h4, h5, h6, h7, h8, h9⟩

theorem update_count (e : mmc_sd_sec_err_info) (status : Nat) (clk : Nat × Nat) :
    (mmc_sd_sec_inc_err_count_update e status clk).count = (e.count + 1) % U32_MOD := by
  unfold mmc_sd_sec_inc_err_count_update
  dsimp only
  split_ifs <;> rfl

theorem update_err_type (e : mmc_sd_sec_err_info) (status : Nat) (clk : Nat × Nat) :
    (mmc_sd_sec_inc_err_count_update e status clk).err_type = e.err_type := by
  unfold mmc_sd_sec_inc_err_count_update
  dsimp only
  split_ifs <;> rfl

/-- On an initialised table, `-EILSEQ` on phase `i` updates slot `2 * i`. -/
theorem inc_err_count_eilseq (t : List mmc_sd_sec_err_info) (h : table_initialised t)
    (i : Nat) (hi : i < MAX_REQ_TYPE_INDEX) (status : Nat) (clk : Nat × Nat) :
    ∃ e, t[MAX_ERR_TYPE_INDEX * i]? = some e ∧ e.err_type = -EILSEQ ∧
      mmc_sd_sec_inc_err_count (MAX_ERR_TYPE_INDEX * i) (-EILSEQ) status clk t =
        t.set (MAX_ERR_TYPE_INDEX * i) (mmc_sd_sec_inc_err_count_update e status clk) := by
  obtain ⟨e0, e1, e2, e3, e4, e5, e6, e7, e8, e9, rfl, h0, h1, h2, h3, h4, h5, h6, h7, h8, h9⟩ :=
    table_initialised_cases t h
  simp only [MAX_REQ_TYPE_INDEX] at hi
  interval_cases i <;>
  simp [mmc_sd_sec_inc_err_count, mmc_sd_sec_inc_err_count_search, EILSEQ,
      ETIMEDOUT, MAX_ERR_TYPE_INDEX, h0, h1, h2, h3, h4, h5, h6, h7, h8, h9]

/-- On an initialised table, any other non-zero code on phase `i` updates slot `2 * i + 1`. -/
theorem inc_err_count_other (t : List mmc_sd_sec_err_info) (h : table_initialised t)
    (i : Nat) (hi : i < MAX_REQ_TYPE_INDEX) (error : Int) (herr : error ≠ 0)
    (hne : error ≠ -EILSEQ) (status : Nat) (clk : Nat × Nat) :
    ∃ e, t[MAX_ERR_TYPE_INDEX * i + 1]? = some e ∧ e.err_type = -ETIMEDOUT ∧
      mmc_sd_sec_inc_err_count (MAX_ERR_TYPE_INDEX * i) error status clk t =
        t.set (MAX_ERR_TYPE_INDEX * i + 1) (mmc_sd_sec_inc_err_count_update e status clk) := by
  obtain ⟨e0, e1, e2, e3, e4, e5, e6, e7, e8, e9, rfl, h0, h1, h2, h3, h4, h5, h6, h7, h8, h9⟩ :=
    table_initialised_cases t h
  simp only [MAX_REQ_TYPE_INDEX] at hi
  simp only [EILSEQ] at hne
  interval_cases i <;>
  simp [mmc_sd_sec_inc_err_count, mmc_sd_sec_inc_err_count_search, EILSEQ,
      ETIMEDOUT, MAX_ERR_TYPE_INDEX, h0, h1, h2, h3, h4, h5, h6, h7, h8, h9, hne, herr]
  rfl

theorem count_at_set (t : List mmc_sd_sec_err_info) (k : Nat) (e new : mmc_sd_sec_err_info)
    (h : t[k]? = some e) (j : Nat) :
    count_at (t.set k new) j = if j = k then new.count else count_at t j := by
  unfold count_at
  by_cases hj : j = k
  · subst hj
    have hlt : j < t.length := (List.getElem?_eq_some_iff.mp h).1
    simp [List.getElem?_set_self hlt]
  · rw [List.getElem?_set_ne (Ne.symm hj), if_neg hj]

theorem phase_offsets_cases (index : Nat) (h : index ∈ phase_offsets) :
    ∃ i, i < MAX_REQ_TYPE_INDEX ∧ index = MAX_ERR_TYPE_INDEX * i := by
  simp only [phase_offsets, SD_SBC_OFFSET, SD_CMD_OFFSET, SD_DATA_OFFSET, SD_STOP_OFFSET,
    SD_BUSY_OFFSET, MAX_ERR_TYPE_INDEX, List.mem_cons, List.mem_singleton, List.not_mem_nil,
    or_false] at h
  rcases h with rfl | rfl | rfl | rfl | rfl
  · exact ⟨0, by decide, by decide⟩
  · exact ⟨1, by decide, by decide⟩
  · exact ⟨2, by decide, by decide⟩
  · exact ⟨3, by decide, by decide⟩
  · exact ⟨4, by decide, by decide⟩

theorem lor_eq_zero (a b : Nat) : a ||| b = 0 ↔ a = 0 ∧ b = 0 := by
  constructor
  · intro h
    have key : ∀ i, a.testBit i = false ∧ b.testBit i = false := by
      intro i
      have hi := congrArg (fun n => n.testBit i) h
      simpa [Nat.testBit_or] using hi
    exact ⟨Nat.eq_of_testBit_eq (by intro i; simp [(key i).1]),
      Nat.eq_of_testBit_eq (by intro i; simp [(key i).2])⟩
  · rintro ⟨rfl, rfl⟩
    rfl

theorem status_mask_zero_iff (status : Nat) :
    status &&& STATUS_MASK = 0 ↔
      status &&& R1_ERROR = 0 ∧ status &&& R1_CC_ERROR = 0 ∧
      status &&& R1_CARD_ECC_FAILED = 0 ∧ status &&& R1_WP_VIOLATION = 0 ∧
      status &&& R1_OUT_OF_RANGE = 0 := by
  unfold STATUS_MASK
  rw [Nat.and_or_distrib_left, Nat.and_or_distrib_left, Nat.and_or_distrib_left,
    Nat.and_or_distrib_left, lor_eq_zero, lor_eq_zero, lor_eq_zero, lor_eq_zero]
  tauto

theorem counters_fst (se : mmc_sd_sec_status_err_info) (status : Nat) :
    (mmc_sd_sec_inc_status_err_counters se status).1 =
      ⟨if status &&& R1_ERROR ≠ 0 then (se.ge_cnt + 1) % U32_MOD else se.ge_cnt,
        if status &&& R1_CC_ERROR ≠ 0 then (se.cc_cnt + 1) % U32_MOD else se.cc_cnt,
        if status &&& R1_CARD_ECC_FAILED ≠ 0 then (se.ecc_cnt + 1) % U32_MOD else se.ecc_cnt,
        if status &&& R1_WP_VIOLATION ≠ 0 then (se.wp_cnt + 1) % U32_MOD else se.wp_cnt,
        if status &&& R1_OUT_OF_RANGE ≠ 0 then (se.oor_cnt + 1) % U32_MOD else se.oor_cnt,
        se.noti_cnt⟩ := by
  unfold mmc_sd_sec_inc_status_err_counters
  by_cases h1 : status &&& R1_ERROR = 0 <;> by_cases h2 : status &&& R1_CC_ERROR = 0 <;>
  by_cases h3 : status &&& R1_CARD_ECC_FAILED = 0 <;>
  by_cases h4 : status &&& R1_WP_VIOLATION = 0 <;>
  by_cases h5 : status &&& R1_OUT_OF_RANGE = 0 <;>
  simp [h1, h2, h3, h4, h5]

theorem counters_snd (se : mmc_sd_sec_status_err_info) (status : Nat) :
    (mmc_sd_sec_inc_status_err_counters se status).2 = true ↔
       ((status &&& R1_ERROR ≠ 0 ∧ (se.ge_cnt + 1) % U32_MOD % 1000 = 0) ∨
        (status &&& R1_CARD_ECC_FAILED ≠ 0 ∧ (se.ecc_cnt + 1) % U32_MOD % 1000 = 0) ∨
        (status &&& R1_WP_VIOLATION ≠ 0 ∧ (se.wp_cnt + 1) % U32_MOD % 100 = 0) ∨
        (status &&& R1_OUT_OF_RANGE ≠ 0 ∧ (se.oor_cnt + 1) % U32_MOD % 100 = 0)) := by
  unfold mmc_sd_sec_inc_status_err_counters
  by_cases h1 : status &&& R1_ERROR = 0 <;> by_cases h2 : status &&& R1_CC_ERROR = 0 <;>
  by_cases h3 : status &&& R1_CARD_ECC_FAILED = 0 <;>
  by_cases h4 : status &&& R1_WP_VIOLATION = 0 <;>
  by_cases h5 : status &&& R1_OUT_OF_RANGE = 0 <;>
  simp [h1, h2, h3, h4, h5] <;> tauto

theorem inc_status_err_status_err (dev : Bool) (card : mmc_card) (status : Nat)
    (sdi : mmc_sd_sec_device_info) :
    (mmc_sd_sec_inc_status_err dev card status sdi).status_err =
      (mmc_sd_sec_inc_status_err_counters sdi.status_err status).1 := by
  unfold mmc_sd_sec_inc_status_err
  dsimp only
  split_ifs <;> rfl

theorem inc_status_err_scheduled (dev : Bool) (card : mmc_card) (status : Nat)
    (sdi : mmc_sd_sec_device_info) :
    (mmc_sd_sec_inc_status_err dev card status sdi).noti_work_scheduled =
      if (mmc_sd_sec_inc_status_err_counters sdi.status_err status).2 = true ∧
          mmc_card_sd card = true ∧ dev = true
      then sdi.noti_work_scheduled + 1 else sdi.noti_work_scheduled := by
  unfold mmc_sd_sec_inc_status_err
  dsimp only
  split_ifs with h1 h2 h2
  · rfl
  · simp_all
  · simp_all
  · rfl

theorem inc_status_err_frame (dev : Bool) (card : mmc_card) (status : Nat)
    (sdi : mmc_sd_sec_device_info) :
    (mmc_sd_sec_inc_status_err dev card status sdi).err_info = sdi.err_info ∧
    (mmc_sd_sec_inc_status_err dev card status sdi).tstamp_last_cmd = sdi.tstamp_last_cmd ∧
    (mmc_sd_sec_inc_status_err dev card status sdi).tray_status = sdi.tray_status ∧
    (mmc_sd_sec_inc_status_err dev card status sdi).card_detect_cnt = sdi.card_detect_cnt := by
  unfold mmc_sd_sec_inc_status_err
  dsimp only
  split_ifs <;> exact ⟨rfl, rfl, rfl, rfl⟩

theorem inc_err_count_zero (index status : Nat) (clk : Nat × Nat)
    (t : List mmc_sd_sec_err_info) : mmc_sd_sec_inc_err_count index 0 status clk t = t := by
  simp [mmc_sd_sec_inc_err_count]

theorem search_two (t : List mmc_sd_sec_err_info) (index : Nat) (err : Int) :
    mmc_sd_sec_inc_err_count_search t index err MAX_ERR_TYPE_INDEX 0 =
      if (t[index]?).map (fun e => e.err_type) = some err then (index, 0)
      else if (t[index + 1]?).map (fun e => e.err_type) = some err then (index + 1, 1)
      else (index, 2) := by
  simp [mmc_sd_sec_inc_err_count_search, MAX_ERR_TYPE_INDEX]

/-- The result of `mmc_sd_sec_inc_err_count` is the table itself or the table with one slot
of the phase updated. -/
theorem inc_err_count_cases (index : Nat) (error : Int) (status : Nat) (clk : Nat × Nat)
    (t : List mmc_sd_sec_err_info) :
    mmc_sd_sec_inc_err_count index error status clk t = t ∨
    ∃ k e, index ≤ k ∧ k < index + MAX_ERR_TYPE_INDEX ∧ t[k]? = some e ∧
      mmc_sd_sec_inc_err_count index error status clk t =
        t.set k (mmc_sd_sec_inc_err_count_update e status clk) := by
  unfold mmc_sd_sec_inc_err_count
  by_cases h0 : error = 0
  · left
    simp [h0]
  · simp only [h0, if_false]
    generalize (if error ≠ -EILSEQ then -ETIMEDOUT else error) = err
    rw [search_two]
    by_cases h1 : (t[index]?).map (fun e => e.err_type) = some err
    · obtain ⟨e, hk, _⟩ := Option.map_eq_some'.mp h1
      right
      refine ⟨index, e, by omega, by simp [MAX_ERR_TYPE_INDEX], hk, ?_⟩
      rw [if_pos h1]
      simp [hk, MAX_ERR_TYPE_INDEX]
    · by_cases h2 : (t[index + 1]?).map (fun e => e.err_type) = some err
      · obtain ⟨e, hk, _⟩ := Option.map_eq_some'.mp h2
        right
        refine ⟨index + 1, e, by omega, by simp [MAX_ERR_TYPE_INDEX], hk, ?_⟩
        rw [if_neg h1, if_pos h2]
        simp [hk, MAX_ERR_TYPE_INDEX]
      · left
        rw [if_neg h1, if_neg h2]
        simp [MAX_ERR_TYPE_INDEX]

theorem inc_err_count_frame (index : Nat) (error : Int) (status : Nat) (clk : Nat × Nat)
    (t : List mmc_sd_sec_err_info) (j : Nat)
    (hj : j < index ∨ index + MAX_ERR_TYPE_INDEX ≤ j) :
    (mmc_sd_sec_inc_err_count index error status clk t)[j]? = t[j]? := by
  rcases inc_err_count_cases index error status clk t with h | ⟨k, e, h1, h2, _, h⟩
  · rw [h]
  · rw [h]
    exact List.getElem?_set_ne (by omega)

theorem inc_err_count_err_types (index : Nat) (error : Int) (status : Nat) (clk : Nat × Nat)
    (t : List mmc_sd_sec_err_info) :
    (mmc_sd_sec_inc_err_count index error status clk t).map (fun e => e.err_type) =
      t.map (fun e => e.err_type) := by
  rcases inc_err_count_cases index error status clk t with h | ⟨k, e, _, _, hk, h⟩
  · rw [h]
  · rw [h, List.map_set, update_err_type]
    apply List.ext_getElem?
    intro j
    by_cases hjk : k = j
    · subst hjk
      rw [List.getElem?_set']
      simp [hk]
    · rw [List.getElem?_set_ne hjk]

theorem inc_err_count_initialised (index : Nat) (error : Int) (status : Nat) (clk : Nat × Nat)
    (t : List mmc_sd_sec_err_info) (h : table_initialised t) :
    table_initialised (mmc_sd_sec_inc_err_count index error status clk t) := by
  unfold table_initialised at *
  rw [inc_err_count_err_types, h]

theorem log_err_count_stages (env : Env) (card : mmc_card) (mrq : mmc_request)
    (cmd : mmc_command) (sdi : mmc_sd_sec_device_info) :
    mmc_sd_sec_log_err_count env card mrq cmd sdi =
      log_stage_busy env (mrq_status mrq cmd) cmd
        (log_stage_error env (mrq_status mrq cmd) SD_STOP_OFFSET (cmd_error mrq.stop)
          (log_stage_error env (mrq_status mrq cmd) SD_DATA_OFFSET (data_error mrq.data)
            (log_stage_error env (mrq_status mrq cmd) SD_SBC_OFFSET (cmd_error mrq.sbc)
              (log_stage_error env (mrq_status mrq cmd) SD_CMD_OFFSET cmd.error
                (log_stage_status env card (mrq_status mrq cmd) sdi))))) := by
  have key : ∀ (offset : Nat) (error : Int) (s : mmc_sd_sec_device_info),
      (if error ≠ 0 then
        { s with
            err_info := mmc_sd_sec_inc_err_count offset error (mrq_status mrq cmd)
              (env.cpu_clock offset) s.err_info }
       else s) = log_stage_error env (mrq_status mrq cmd) offset error s := by
    intro offset error s
    unfold log_stage_error
    by_cases h : error = 0
    · simp [h, inc_err_count_zero]
    · simp [h]
  unfold mmc_sd_sec_log_err_count
  simp only [key]
  rcases hsbc : mrq.sbc with _ | sbc <;> rcases hdata : mrq.data with _ | data <;>
  rcases hstop : mrq.stop with _ | stop <;>
  simp only [cmd_error, data_error, ← key _ (0 : Int)] <;> rfl

theorem log_stage_error_zero (env : Env) (status offset : Nat)
    (sdi : mmc_sd_sec_device_info) : log_stage_error env status offset 0 sdi = sdi := by
  simp [log_stage_error, inc_err_count_zero]

/-- An invariant of the three kinds of update that `mmc_sd_sec_check_req_err` performs is an
invariant of the function. -/
theorem check_req_err_induct (P : mmc_sd_sec_device_info → Prop)
    (h_ts : ∀ s j, P s → P { s with tstamp_last_cmd := j })
    (h_st : ∀ s dev card st, P s → P (mmc_sd_sec_inc_status_err dev card st s))
    (h_err : ∀ s idx err st clk, P s →
      P { s with err_info := mmc_sd_sec_inc_err_count idx err st clk s.err_info })
    (env : Env) (host : mmc_host) (mrq : Option mmc_request) (s : mmc_sd_sec_device_info)
    (hs : P s) : P (mmc_sd_sec_check_req_err env host mrq s) := by
  have h_stage : ∀ s st off err, P s → P (log_stage_error env st off err s) :=
    fun s st off err h => h_err s off err st _ h
  have h_status : ∀ s card st, P s → P (log_stage_status env card st s) := by
    intro s card st h
    unfold log_stage_status
    split_ifs
    · exact h_st _ _ _ _ h
    · exact h
  have h_busy : ∀ s st cmd, P s → P (log_stage_busy env st cmd s) := by
    intro s st cmd h
    unfold log_stage_busy
    split_ifs
    · exact h
    · exact h_ts _ _ (h_err s SD_BUSY_OFFSET (-ETIMEDOUT) st _ h)
    · exact h
  unfold mmc_sd_sec_check_req_err
  split
  · split
    · exact hs
    · split_ifs
      · exact hs
      · rw [log_err_count_stages]
        exact h_busy _ _ _ (h_stage _ _ _ _ (h_stage _ _ _ _ (h_stage _ _ _ _
          (h_stage _ _ _ _ (h_status _ _ _ (h_ts _ _ hs))))))
      · exact h_ts _ _ hs
      · rw [log_err_count_stages]
        exact h_busy _ _ _ (h_stage _ _ _ _ (h_stage _ _ _ _ (h_stage _ _ _ _
          (h_stage _ _ _ _ (h_status _ _ _ hs)))))
      · exact hs
  · exact hs

/-- What no request completion changes: presence state, card-detect count and the
`err_type` column (hence the length) of the table. -/
theorem check_req_err_frame (env : Env) (host : mmc_host) (mrq : Option mmc_request)
    (s : mmc_sd_sec_device_info) :
    (mmc_sd_sec_check_req_err env host mrq s).tray_status = s.tray_status ∧
    (mmc_sd_sec_check_req_err env host mrq s).card_detect_cnt = s.card_detect_cnt ∧
    (mmc_sd_sec_check_req_err env host mrq s).err_info.map (fun e => e.err_type) =
      s.err_info.map (fun e => e.err_type) := by
  apply check_req_err_induct
    (fun x => x.tray_status = s.tray_status ∧ x.card_detect_cnt = s.card_detect_cnt ∧
      x.err_info.map (fun e => e.err_type) = s.err_info.map (fun e => e.err_type))
  · intro x j h
    exact h
  · intro x dev card st h
    obtain ⟨f1, _, f3, f4⟩ := inc_status_err_frame dev card st x
    rw [f1, f3, f4]
    exact h
  · intro x idx err st clk h
    exact ⟨h.1, h.2.1, by rw [inc_err_count_err_types]; exact h.2.2⟩
  · exact ⟨rfl, rfl, rfl⟩

theorem run_requests_frame (evs : List req_event) (s : mmc_sd_sec_device_info) :
    (run_requests evs s).tray_status = s.tray_status ∧
    (run_requests evs s).card_detect_cnt = s.card_detect_cnt ∧
    (run_requests evs s).err_info.map (fun e => e.err_type) =
      s.err_info.map (fun e => e.err_type) := by
  induction evs generalizing s with
  | nil => exact ⟨rfl, rfl, rfl⟩
  | cons ev evs ih =>
    have h1 := check_req_err_frame ev.env ev.host ev.mrq s
    have h2 := ih (mmc_sd_sec_check_req_err ev.env ev.host ev.mrq s)
    simp only [run_requests, List.foldl_cons] at h2 ⊢
    exact ⟨h2.1.trans h1.1, h2.2.1.trans h1.2.1, h2.2.2.trans h1.2.2⟩

/-- The early returns of `mmc_sd_sec_check_req_err`: no card, no request or no command. -/
theorem check_req_err_skip (env : Env) (host : mmc_host) (mrq : Option mmc_request)
    (s : mmc_sd_sec_device_info)
    (h : host.card = none ∨ mrq = none ∨ ∃ m, mrq = some m ∧ m.cmd = none) :
    mmc_sd_sec_check_req_err env host mrq s = s := by
  unfold mmc_sd_sec_check_req_err
  rcases h with h | h | ⟨m, h1, h2⟩
  · simp [h]
  · subst h
    cases host.card <;> rfl
  · subst h1
    cases host.card
    · rfl
    · simp [h2]

/-- The body of `mmc_sd_sec_check_req_err` once card, request and command are there. -/
theorem check_req_err_some (env : Env) (host : mmc_host) (card : mmc_card)
    (mrq : mmc_request) (cmd : mmc_command) (s : mmc_sd_sec_device_info)
    (hcard : host.card = some card) (hcmd : mrq.cmd = some cmd) :
    mmc_sd_sec_check_req_err env host (some mrq) s =
      if cmd.opcode = MMC_SEND_TUNING_BLOCK ∨ cmd.opcode = MMC_SEND_TUNING_BLOCK_HS200 then s
      else if mmc_sd_sec_check_cmd_type cmd = true then
        mmc_sd_sec_log_err_count env card mrq cmd
          (if cmd.opcode ≠ MMC_SEND_STATUS then { s with tstamp_last_cmd := env.jiffies_cmd }
            else s)
      else (if cmd.opcode ≠ MMC_SEND_STATUS then { s with tstamp_last_cmd := env.jiffies_cmd }
            else s) := by
  unfold mmc_sd_sec_check_req_err
  simp only [hcard, hcmd]

theorem log_stage_status_err_info (env : Env) (card : mmc_card) (status : Nat)
    (s : mmc_sd_sec_device_info) :
    (log_stage_status env card status s).err_info = s.err_info ∧
    (log_stage_status env card status s).tstamp_last_cmd = s.tstamp_last_cmd := by
  unfold log_stage_status
  split_ifs
  · exact ⟨(inc_status_err_frame _ _ _ _).1, (inc_status_err_frame _ _ _ _).2.1⟩
  · exact ⟨rfl, rfl⟩

/-- A request completion whose error codes are all zero goes through the status block and
the busy-stuck block only. -/
theorem log_err_count_zero_errors (env : Env) (card : mmc_card) (mrq : mmc_request)
    (cmd : mmc_command) (s : mmc_sd_sec_device_info) (hcmd : mrq.cmd = some cmd)
    (hz : req_errors_zero mrq) :
    mmc_sd_sec_log_err_count env card mrq cmd s =
      log_stage_busy env (mrq_status mrq cmd) cmd
        (log_stage_status env card (mrq_status mrq cmd) s) := by
  obtain ⟨h1, h2, h3, h4⟩ := hz
  rw [hcmd] at h1
  simp only [cmd_error] at h1
  rw [log_err_count_stages, h1, h2, h3, h4]
  simp only [log_stage_error_zero]

theorem check_req_err_zero_step (ev : req_event) (s : mmc_sd_sec_device_info)
    (hz : req_event_errors_zero ev) :
    (∀ j, j < SD_BUSY_OFFSET →
      (mmc_sd_sec_check_req_err ev.env ev.host ev.mrq s).err_info[j]? = s.err_info[j]?) ∧
    (flagged_busy_stuck ev s = false →
      (mmc_sd_sec_check_req_err ev.env ev.host ev.mrq s).err_info = s.err_info) := by
  rcases hcard : ev.host.card with _ | card
  · rw [check_req_err_skip _ _ _ _ (Or.inl hcard)]
    exact ⟨fun _ _ => rfl, fun _ => rfl⟩
  rcases hmrq : ev.mrq with _ | mrq
  · rw [check_req_err_skip _ _ _ _ (Or.inr (Or.inl rfl))]
    exact ⟨fun _ _ => rfl, fun _ => rfl⟩
  rcases hcmd : mrq.cmd with _ | cmd
  · rw [check_req_err_skip _ _ _ _ (Or.inr (Or.inr ⟨mrq, rfl, hcmd⟩))]
    exact ⟨fun _ _ => rfl, fun _ => rfl⟩
  rw [check_req_err_some _ _ _ _ _ _ hcard hcmd]
  have hz2 : req_errors_zero mrq := by
    unfold req_event_errors_zero at hz
    rw [hmrq] at hz
    exact hz
  by_cases htune : cmd.opcode = MMC_SEND_TUNING_BLOCK ∨ cmd.opcode = MMC_SEND_TUNING_BLOCK_HS200
  · rw [if_pos htune]
    exact ⟨fun _ _ => rfl, fun _ => rfl⟩
  rw [if_neg htune]
  by_cases htype : mmc_sd_sec_check_cmd_type cmd = true
  swap
  · rw [if_neg htype]
    split_ifs <;> exact ⟨fun _ _ => rfl, fun _ => rfl⟩
  rw [if_pos htype, log_err_count_zero_errors _ _ _ _ _ hcmd hz2]
  by_cases hop : cmd.opcode = MMC_SEND_STATUS
  swap
  · simp only [log_stage_busy, hop, ne_eq, not_false_eq_true, if_true]
    exact ⟨fun _ _ => by rw [(log_stage_status_err_info _ _ _ _).1],
      fun _ => by rw [(log_stage_status_err_info _ _ _ _).1]⟩
  simp only [hop, ne_eq, not_true_eq_false, if_false]
  have hflag : flagged_busy_stuck ev s =
      mmc_sd_sec_check_busy_stuck s.tstamp_last_cmd ev.env.jiffies_chk
        (ev.env.msecs_to_jiffies MMC_BLK_TIMEOUT_MS) (mrq_status mrq cmd) := by
    simp [flagged_busy_stuck, req_event_opcode, req_event_status, hmrq, hcmd, hop]
  unfold log_stage_busy
  rw [(log_stage_status_err_info _ _ _ _).2, ← hflag]
  simp only [hop, ne_eq, not_true_eq_false, if_false]
  by_cases hf : flagged_busy_stuck ev s = true
  · rw [if_pos hf]
    refine ⟨fun j hj => ?_, fun h => ?_⟩
    · dsimp only
      rw [inc_err_count_frame _ _ _ _ _ _ (Or.inl hj), (log_stage_status_err_info _ _ _ _).1]
    · rw [hf] at h
      cases h
  · rw [if_neg hf]
    exact ⟨fun _ _ => by rw [(log_stage_status_err_info _ _ _ _).1],
      fun _ => by rw [(log_stage_status_err_info _ _ _ _).1]⟩

theorem check_req_err_status_clean (ev : req_event) (s : mmc_sd_sec_device_info)
    (h : req_event_status ev &&& STATUS_MASK = 0) :
    (mmc_sd_sec_check_req_err ev.env ev.host ev.mrq s).status_err = s.status_err ∧
    (mmc_sd_sec_check_req_err ev.env ev.host ev.mrq s).noti_work_scheduled =
      s.noti_work_scheduled := by
  rcases hcard : ev.host.card with _ | card
  · rw [check_req_err_skip _ _ _ _ (Or.inl hcard)]
    exact ⟨rfl, rfl⟩
  rcases hmrq : ev.mrq with _ | mrq
  · rw [check_req_err_skip _ _ _ _ (Or.inr (Or.inl rfl))]
    exact ⟨rfl, rfl⟩
  rcases hcmd : mrq.cmd with _ | cmd
  · rw [check_req_err_skip _ _ _ _ (Or.inr (Or.inr ⟨mrq, rfl, hcmd⟩))]
    exact ⟨rfl, rfl⟩
  rw [check_req_err_some _ _ _ _ _ _ hcard hcmd]
  have hst : mrq_status mrq cmd &&& STATUS_MASK = 0 := by
    simpa [req_event_status, hmrq, hcmd] using h
  rw [log_err_count_stages]
  simp only [log_stage_status, hst, ne_eq, not_true_eq_false, if_false, log_stage_error,
    log_stage_busy]
  split_ifs <;> exact ⟨rfl, rfl⟩

theorem length_ten_cases {α : Type} (t : List α) (h : t.length = MAX_LOG_INDEX) :
    ∃ e0 e1 e2 e3 e4 e5 e6 e7 e8 e9 : α, t = [e0, e1, e2, e3, e4, e5, e6, e7, e8, e9] := by
  have h10 : t.length = 10 := h
  rcases t with _ | ⟨e0, _ | ⟨e1, _ | ⟨e2, _ | ⟨e3, _ | ⟨e4, _ | ⟨e5, _ | ⟨e6, _ | ⟨e7,
    _ | ⟨e8, _ | ⟨e9, _ | ⟨e10, t⟩⟩⟩⟩⟩⟩⟩⟩⟩⟩⟩ <;> simp at h10
  exact ⟨e0, e1, e2, e3, e4, e5, e6, e7, e8, e9, rfl⟩

/-- On a table of `MAX_LOG_INDEX` slots the clearing loop zeroes status, both timestamps
and count of every slot and keeps label and error kind. -/
theorem clear_err_count_loop_eq (t : List mmc_sd_sec_err_info)
    (h : t.length = MAX_LOG_INDEX) :
    mmc_sd_sec_clear_err_count_loop t MAX_LOG_INDEX 0 =
      t.map (fun e =>
        { e with
            status := 0
            first_issue_time := 0
            last_issue_time := 0
            count := 0 }) := by
  obtain ⟨e0, e1, e2, e3, e4, e5, e6, e7, e8, e9, rfl⟩ := length_ten_cases t h
  simp [mmc_sd_sec_clear_err_count_loop, MAX_LOG_INDEX, MAX_REQ_TYPE_INDEX, MAX_ERR_TYPE_INDEX]

theorem run_requests_length (evs : List req_event) (s : mmc_sd_sec_device_info) :
    (run_requests evs s).err_info.length = s.err_info.length := by
  have h := (run_requests_frame evs s).2.2
  have h2 := congrArg List.length h
  simpa using h2

theorem card_event_same (host : Option mmc_host) (cd : Int) (sdi : mmc_sd_sec_device_info)
    (h : presence cd = sdi.tray_status) : sd_sec_card_event host cd sdi = (host, sdi) := by
  unfold sd_sec_card_event
  cases host with
  | none => rfl
  | some host =>
    unfold presence at h
    simp [h]

theorem card_event_flip (host : mmc_host) (cd : Int) (sdi : mmc_sd_sec_device_info)
    (h : presence cd ≠ sdi.tray_status) :
    sd_sec_card_event (some host) cd sdi =
      (some { host with unused := 0 },
        mmc_sd_sec_clear_err_count
          { sdi with
              tray_status := presence cd
              card_detect_cnt :=
                if sdi.card_detect_cnt < UINT_MAX then sdi.card_detect_cnt + 1
                else sdi.card_detect_cnt }) := by
  unfold sd_sec_card_event
  unfold presence at h ⊢
  have hx : xor (if cd ≠ 0 then true else false) sdi.tray_status = true := by
    cases hts : sdi.tray_status <;> by_cases hcd : cd = 0 <;> simp_all
  simp only [hx, if_true]
  split_ifs <;> rfl

theorem card_event_tray_status (host : mmc_host) (cd : Int) (sdi : mmc_sd_sec_device_info) :
    (sd_sec_card_event (some host) cd sdi).2.tray_status = presence cd := by
  by_cases h : presence cd = sdi.tray_status
  · rw [card_event_same _ _ _ h, h]
  · rw [card_event_flip _ _ _ h]
    rfl

theorem card_event_cnt_step (ev : card_event) (sdi : mmc_sd_sec_device_info) :
    sdi.card_detect_cnt ≤ (sd_sec_card_event ev.host ev.cd sdi).2.card_detect_cnt ∧
    (sdi.card_detect_cnt ≤ UINT_MAX →
      (sd_sec_card_event ev.host ev.cd sdi).2.card_detect_cnt ≤ UINT_MAX) := by
  rcases hh : ev.host with _ | host
  · exact ⟨Nat.le_refl _, fun h => h⟩
  · by_cases h : presence ev.cd = sdi.tray_status
    · rw [card_event_same _ _ _ h]
      exact ⟨Nat.le_refl _, fun h => h⟩
    · rw [card_event_flip _ _ _ h]
      simp only [mmc_sd_sec_clear_err_count]
      split_ifs with hlt
      · exact ⟨Nat.le_succ _, fun _ => hlt⟩
      · exact ⟨Nat.le_refl _, fun h => h⟩

theorem run_card_events_cnt (evs : List card_event) (sdi : mmc_sd_sec_device_info) :
    sdi.card_detect_cnt ≤ (run_card_events evs sdi).card_detect_cnt ∧
    (sdi.card_detect_cnt ≤ UINT_MAX → (run_card_events evs sdi).card_detect_cnt ≤ UINT_MAX) := by
  induction evs generalizing sdi with
  | nil => exact ⟨Nat.le_refl _, fun h => h⟩
  | cons ev evs ih =>
    obtain ⟨s1, s2⟩ := card_event_cnt_step ev sdi
    obtain ⟨i1, i2⟩ := ih (sd_sec_card_event ev.host ev.cd sdi).2
    simp only [run_card_events, List.foldl_cons] at i1 i2 ⊢
    exact ⟨Nat.le_trans s1 i1, fun h => i2 (s2 h)⟩

theorem run_card_events_append (evs1 evs2 : List card_event) (sdi : mmc_sd_sec_device_info) :
    run_card_events (evs1 ++ evs2) sdi = run_card_events evs2 (run_card_events evs1 sdi) := by
  simp [run_card_events, List.foldl_append]

theorem clear_err_count_eq (s : mmc_sd_sec_device_info)
    (h : s.err_info.length = MAX_LOG_INDEX) :
    mmc_sd_sec_clear_err_count s =
      { s with
          err_info := s.err_info.map (fun e =>
            { e with
                status := 0
                first_issue_time := 0
                last_issue_time := 0
                count := 0 })
          status_err := ⟨0, 0, 0, 0, 0, 0⟩ } := by
  unfold mmc_sd_sec_clear_err_count
  rw [clear_err_count_loop_eq _ h]

theorem clear_err_count_spec (s : mmc_sd_sec_device_info)
    (h : s.err_info.length = MAX_LOG_INDEX) :
    (mmc_sd_sec_clear_err_count s).err_info.length = MAX_LOG_INDEX ∧
    (∀ e ∈ (mmc_sd_sec_clear_err_count s).err_info,
      e.count = 0 ∧ e.status = 0 ∧ e.first_issue_time = 0 ∧ e.last_issue_time = 0) ∧
    (mmc_sd_sec_clear_err_count s).status_err = ⟨0, 0, 0, 0, 0, 0⟩ ∧
    (mmc_sd_sec_clear_err_count s).tray_status = s.tray_status := by
  rw [clear_err_count_eq s h]
  refine ⟨?_, ?_, rfl, rfl⟩
  · rw [List.length_map]
    exact h
  · intro e he
    obtain ⟨a, _, rfl⟩ := List.mem_map.mp he
    exact ⟨rfl, rfl, rfl, rfl⟩

/-- With more than `timeout` ticks (and fewer than `LONG_SIGN`) elapsed since `tstamp`,
`time_before(jiffies, tstamp + timeout)` is false; it is also false at exactly `timeout`. -/
theorem time_before_false (jiffies tstamp timeout : Nat)
    (h1 : timeout ≤ jiffies_elapsed jiffies tstamp)
    (h2 : jiffies_elapsed jiffies tstamp < LONG_SIGN) :
    time_before jiffies ((tstamp + timeout) % ULONG_MOD) = false := by
  unfold time_before
  unfold jiffies_elapsed at h1 h2
  unfold ULONG_MOD LONG_SIGN at *
  rw [decide_eq_false_iff_not]
  omega

/-- With fewer than `timeout` ticks elapsed since `tstamp`, and `timeout` itself below
`LONG_SIGN`, `time_before(jiffies, tstamp + timeout)` is true. -/
theorem time_before_true (jiffies tstamp timeout : Nat)
    (h1 : jiffies_elapsed jiffies tstamp < timeout) (h2 : timeout ≤ LONG_SIGN) :
    time_before jiffies ((tstamp + timeout) % ULONG_MOD) = true := by
  unfold time_before
  unfold jiffies_elapsed at h1
  unfold ULONG_MOD LONG_SIGN at *
  rw [decide_eq_true_iff]
  omega

theorem jiffies_elapsed_of_le (now tstamp : Nat) (h1 : tstamp ≤ now) (h2 : now < ULONG_MOD) :
    jiffies_elapsed now tstamp = now - tstamp := by
  unfold jiffies_elapsed
  unfold ULONG_MOD at *
  omega

theorem check_busy_stuck_elapsed (tstamp jiffies timeout status : Nat)
    (h1 : timeout ≤ jiffies_elapsed jiffies tstamp)
    (h2 : jiffies_elapsed jiffies tstamp < LONG_SIGN) :
    mmc_sd_sec_check_busy_stuck tstamp jiffies timeout status = true ↔
      status ≠ 0 ∧
        (status &&& R1_READY_FOR_DATA = 0 ∨ R1_CURRENT_STATE status = R1_STATE_PRG) := by
  unfold mmc_sd_sec_check_busy_stuck
  rw [time_before_false _ _ _ h1 h2]
  simp

theorem check_busy_stuck_early (tstamp jiffies timeout status : Nat)
    (h1 : jiffies_elapsed jiffies tstamp < timeout) (h2 : timeout ≤ LONG_SIGN) :
    mmc_sd_sec_check_busy_stuck tstamp jiffies timeout status = false := by
  unfold mmc_sd_sec_check_busy_stuck
  rw [time_before_true _ _ _ h1 h2]
  simp

theorem log_stage_error_keeps (env : Env) (status offset : Nat) (error : Int)
    (s : mmc_sd_sec_device_info) :
    (log_stage_error env status offset error s).tstamp_last_cmd = s.tstamp_last_cmd ∧
    (table_initialised s.err_info →
      table_initialised (log_stage_error env status offset error s).err_info) ∧
    (∀ j, offset + MAX_ERR_TYPE_INDEX ≤ j →
      (log_stage_error env status offset error s).err_info[j]? = s.err_info[j]?) := by
  unfold log_stage_error
  exact ⟨rfl, fun h => inc_err_count_initialised _ _ _ _ _ h,
    fun j hj => inc_err_count_frame _ _ _ _ _ _ (Or.inr hj)⟩

theorem count_at_congr (t1 t2 : List mmc_sd_sec_err_info) (j : Nat) (h : t1[j]? = t2[j]?) :
    count_at t1 j = count_at t2 j := by
  unfold count_at
  rw [h]

/-- The effect of `mmc_sd_sec_log_err_count` on the busy-check Timeout slot and on the
last-command timestamp, on an initialised table. -/
theorem log_err_count_busy_slot (env : Env) (card : mmc_card) (mrq : mmc_request)
    (cmd : mmc_command) (s : mmc_sd_sec_device_info) (hinit : table_initialised s.err_info) :
    count_at (mmc_sd_sec_log_err_count env card mrq cmd s).err_info (SD_BUSY_OFFSET + 1) =
      (if cmd.opcode = MMC_SEND_STATUS ∧
          mmc_sd_sec_check_busy_stuck s.tstamp_last_cmd env.jiffies_chk
            (env.msecs_to_jiffies MMC_BLK_TIMEOUT_MS) (mrq_status mrq cmd) = true
        then (count_at s.err_info (SD_BUSY_OFFSET + 1) + 1) % U32_MOD
        else count_at s.err_info (SD_BUSY_OFFSET + 1)) ∧
    (mmc_sd_sec_log_err_count env card mrq cmd s).tstamp_last_cmd =
      (if cmd.opcode = MMC_SEND_STATUS ∧
          mmc_sd_sec_check_busy_stuck s.tstamp_last_cmd env.jiffies_chk
            (env.msecs_to_jiffies MMC_BLK_TIMEOUT_MS) (mrq_status mrq cmd) = true
        then env.jiffies_upd else s.tstamp_last_cmd) := by
  rw [log_err_count_stages]
  generalize hst : mrq_status mrq cmd = st
  have a0 := log_stage_status_err_info env card st s
  generalize log_stage_status env card st s = x0 at a0 ⊢
  have a1 := log_stage_error_keeps env st SD_CMD_OFFSET cmd.error x0
  generalize log_stage_error env st SD_CMD_OFFSET cmd.error x0 = x1 at a1 ⊢
  have a2 := log_stage_error_keeps env st SD_SBC_OFFSET (cmd_error mrq.sbc) x1
  generalize log_stage_error env st SD_SBC_OFFSET (cmd_error mrq.sbc) x1 = x2 at a2 ⊢
  have a3 := log_stage_error_keeps env st SD_DATA_OFFSET (data_error mrq.data) x2
  generalize log_stage_error env st SD_DATA_OFFSET (data_error mrq.data) x2 = x3 at a3 ⊢
  have a4 := log_stage_error_keeps env st SD_STOP_OFFSET (cmd_error mrq.stop) x3
  generalize log_stage_error env st SD_STOP_OFFSET (cmd_error mrq.stop) x3 = x4 at a4 ⊢
  have hts : x4.tstamp_last_cmd = s.tstamp_last_cmd := by
    rw [a4.1, a3.1, a2.1, a1.1, a0.2]
  have hini : table_initialised x4.err_info := by
    apply a4.2.1
    apply a3.2.1
    apply a2.2.1
    apply a1.2.1
    rw [a0.1]
    exact hinit
  have hslot : x4.err_info[SD_BUSY_OFFSET + 1]? = s.err_info[SD_BUSY_OFFSET + 1]? := by
    rw [a4.2.2 _ (by decide), a3.2.2 _ (by decide), a2.2.2 _ (by decide),
      a1.2.2 _ (by decide), a0.1]
  unfold log_stage_busy
  rw [hts]
  by_cases hop : cmd.opcode = MMC_SEND_STATUS
  · by_cases hb : mmc_sd_sec_check_busy_stuck s.tstamp_last_cmd env.jiffies_chk
        (env.msecs_to_jiffies MMC_BLK_TIMEOUT_MS) st = true
    · simp only [hop, hb, ne_eq, not_true_eq_false, if_false, if_true, and_self]
      refine ⟨?_, trivial⟩
      obtain ⟨e, hget, _, heq⟩ := inc_err_count_other x4.err_info hini 4 (by decide)
        (-ETIMEDOUT) (by decide) (by decide) st (env.cpu_clock SD_BUSY_OFFSET)
      have heq2 : mmc_sd_sec_inc_err_count SD_BUSY_OFFSET (-ETIMEDOUT) st
          (env.cpu_clock SD_BUSY_OFFSET) x4.err_info =
          x4.err_info.set (SD_BUSY_OFFSET + 1)
            (mmc_sd_sec_inc_err_count_update e st (env.cpu_clock SD_BUSY_OFFSET)) := heq
      have hget2 : x4.err_info[SD_BUSY_OFFSET + 1]? = some e := hget
      rw [heq2, count_at_set _ _ e _ hget2, if_pos rfl, update_count]
      have hc : count_at s.err_info (SD_BUSY_OFFSET + 1) = e.count := by
        unfold count_at
        rw [← hslot, hget2]
      rw [hc]
    · simp only [hop, hb, ne_eq, not_true_eq_false, if_false, and_false, Bool.false_eq_true]
      exact ⟨count_at_congr _ _ _ hslot, hts⟩
  · simp only [hop, ne_eq, not_false_eq_true, if_true, false_and, if_false]
    exact ⟨count_at_congr _ _ _ hslot, hts⟩

theorem only_ge_bits (status : Nat) (h : status &&& STATUS_MASK = R1_ERROR) :
    status &&& R1_ERROR ≠ 0 ∧ status &&& R1_CC_ERROR = 0 ∧
    status &&& R1_CARD_ECC_FAILED = 0 ∧ status &&& R1_WP_VIOLATION = 0 ∧
    status &&& R1_OUT_OF_RANGE = 0 := by
  have key : ∀ b : Nat, STATUS_MASK &&& b = b →
      status &&& b = R1_ERROR &&& b := by
    intro b hb
    rw [← h, Nat.and_assoc, hb]
  refine ⟨?_, ?_, ?_, ?_, ?_⟩
  · rw [key R1_ERROR (by decide)]
    decide
  · rw [key R1_CC_ERROR (by decide)]
    decide
  · rw [key R1_CARD_ECC_FAILED (by decide)]
    decide
  · rw [key R1_WP_VIOLATION (by decide)]
    decide
  · rw [key R1_OUT_OF_RANGE (by decide)]
    decide

/-- One status event whose only error bit is `R1_ERROR`, with an SD card and the
notification device registered. -/
theorem inc_status_err_only_ge (card : mmc_card) (hsd : mmc_card_sd card = true)
    (status : Nat) (h : status &&& STATUS_MASK = R1_ERROR) (s : mmc_sd_sec_device_info) :
    mmc_sd_sec_inc_status_err true card status s =
      { s with
          status_err := { s.status_err with ge_cnt := (s.status_err.ge_cnt + 1) % U32_MOD }
          noti_work_scheduled :=
            if (s.status_err.ge_cnt + 1) % U32_MOD % 1000 = 0 then s.noti_work_scheduled + 1
            else s.noti_work_scheduled } := by
  obtain ⟨h1, h2, h3, h4, h5⟩ := only_ge_bits status h
  have hc := counters_fst s.status_err status
  simp only [h1, h2, h3, h4, h5, ne_eq, not_true_eq_false, not_false_eq_true, if_false,
    if_true] at hc
  have hn := counters_snd s.status_err status
  simp only [h1, h3, h4, h5, ne_eq, not_true_eq_false, not_false_eq_true, false_and,
    true_and, or_false] at hn
  unfold mmc_sd_sec_inc_status_err
  by_cases hm : (s.status_err.ge_cnt + 1) % U32_MOD % 1000 = 0
  · have hn2 : (mmc_sd_sec_inc_status_err_counters s.status_err status).2 = true := hn.mpr hm
    simp only [hn2, hsd, hc, hm, Bool.and_self, if_true]
  · have hn2 : (mmc_sd_sec_inc_status_err_counters s.status_err status).2 = false := by
      rw [← Bool.not_eq_true, hn]
      exact hm
    simp [hn2, hc, hm]

/-- A run of general-error status events that does not wrap `ge_cnt`: the counter grows by
the number of events and one notification is scheduled per multiple of 1000 passed. -/
theorem run_only_ge (card : mmc_card) (hsd : mmc_card_sd card = true) (statuses : List Nat)
    (honly : ∀ st ∈ statuses, st &&& STATUS_MASK = R1_ERROR) (s : mmc_sd_sec_device_info)
    (hb : s.status_err.ge_cnt + statuses.length ≤ UINT_MAX) :
    run_status_events true card statuses s =
      { s with
          status_err :=
            { s.status_err with ge_cnt := s.status_err.ge_cnt + statuses.length }
          noti_work_scheduled :=
            s.noti_work_scheduled +
              ((s.status_err.ge_cnt + statuses.length) / 1000 - s.status_err.ge_cnt / 1000) } := by
  induction statuses generalizing s with
  | nil => simp [run_status_events]
  | cons st sts ih =>
    have h1 := inc_status_err_only_ge card hsd st (honly st (List.mem_cons_self _ _)) s
    simp only [List.length_cons, UINT_MAX] at hb
    have hmod : (s.status_err.ge_cnt + 1) % U32_MOD = s.status_err.ge_cnt + 1 := by
      unfold U32_MOD
      omega
    rw [hmod] at h1
    have h2 := ih (fun x hx => honly x (List.mem_cons_of_mem _ hx))
      (mmc_sd_sec_inc_status_err true card st s)
      (by rw [h1]; simp only [UINT_MAX]; omega)
    simp only [run_status_events, List.foldl_cons] at h2 ⊢
    rw [h2, h1]
    simp only [List.length_cons]
    congr 1
    · congr 1
      omega
    · split_ifs <;> omega

theorem run_status_events_append (dev : Bool) (card : mmc_card) (l1 l2 : List Nat)
    (s : mmc_sd_sec_device_info) :
    run_status_events dev card (l1 ++ l2) s =
      run_status_events dev card l2 (run_status_events dev card l1 s) := by
  simp [run_status_events, List.foldl_append]

theorem replicate_only_ge (n : Nat) :
    ∀ st ∈ List.replicate n R1_ERROR, st &&& STATUS_MASK = R1_ERROR := by
  intro st hst
  rw [List.eq_of_mem_replicate hst]
  decide

theorem clear_sdi_boot :
    mmc_sd_sec_clear_err_count sdi_boot =
      { sdi_boot with status_err := ⟨0, 0, 0, 0, 0, 0⟩ } := by
  decide

/-- The state after `UINT_MAX` general-error status events on the reset counters: `ge_cnt`
is `UINT_MAX` and 4294967 notifications have been scheduled. -/
theorem run_uint_max_ge_events :
    run_status_events true ⟨MMC_TYPE_SD⟩ (List.replicate UINT_MAX R1_ERROR)
      (mmc_sd_sec_clear_err_count sdi_boot) =
      { sdi_boot with
          status_err := ⟨UINT_MAX, 0, 0, 0, 0, 0⟩
          noti_work_scheduled := 4294967 } := by
  have hrun := run_only_ge ⟨MMC_TYPE_SD⟩ rfl (List.replicate UINT_MAX R1_ERROR)
    (replicate_only_ge UINT_MAX) (mmc_sd_sec_clear_err_count sdi_boot)
    (by rw [List.length_replicate]; exact Nat.le_of_eq (Nat.zero_add _))
  rw [List.length_replicate] at hrun
  rw [hrun, clear_sdi_boot]
  norm_num [UINT_MAX, sdi_boot, sdi_zero, mmc_sd_sec_init_err_count]

/-- One more general-error status event after `UINT_MAX` of them is the last step of the
run of `UINT_MAX + 1` events. -/
theorem run_wrap_ge_events :
    run_status_events true ⟨MMC_TYPE_SD⟩ (List.replicate (UINT_MAX + 1) R1_ERROR)
      (mmc_sd_sec_clear_err_count sdi_boot) =
      mmc_sd_sec_inc_status_err true ⟨MMC_TYPE_SD⟩ R1_ERROR
        { sdi_boot with
            status_err := ⟨UINT_MAX, 0, 0, 0, 0, 0⟩
            noti_work_scheduled := 4294967 } := by
  rw [List.replicate_succ', run_status_events_append, run_uint_max_ge_events]
  rfl

theorem update_first_issue_time (e : mmc_sd_sec_err_info) (status : Nat) (clk : Nat × Nat) :
    (mmc_sd_sec_inc_err_count_update e status clk).first_issue_time =
      if e.first_issue_time = 0 then clk.1 else e.first_issue_time := by
  unfold mmc_sd_sec_inc_err_count_update
  dsimp only
  split_ifs <;> rfl

theorem update_last_issue_time (e : mmc_sd_sec_err_info) (status : Nat) (clk : Nat × Nat) :
    (mmc_sd_sec_inc_err_count_update e status clk).last_issue_time =
      if e.first_issue_time = 0 then clk.2 else clk.1 := by
  unfold mmc_sd_sec_inc_err_count_update
  dsimp only
  split_ifs <;> rfl

theorem update_status (e : mmc_sd_sec_err_info) (status : Nat) (clk : Nat × Nat) :
    (mmc_sd_sec_inc_err_count_update e status clk).status =
      if e.status = 0 ∨ (R1_CURRENT_STATE status) &&& R1_STATE_TRAN = 0 then status
      else e.status := by
  unfold mmc_sd_sec_inc_err_count_update
  dsimp only
  split_ifs <;> rfl

theorem run_slot_updates_append (e : mmc_sd_sec_err_info)
    (l1 l2 : List (Nat × (Nat × Nat))) :
    run_slot_updates e (l1 ++ l2) = run_slot_updates (run_slot_updates e l1) l2 := by
  simp [run_slot_updates, List.foldl_append]

theorem run_slot_updates_first_kept (e : mmc_sd_sec_err_info) (h : e.first_issue_time ≠ 0)
    (incs : List (Nat × (Nat × Nat))) :
    (run_slot_updates e incs).first_issue_time = e.first_issue_time := by
  induction incs generalizing e with
  | nil => rfl
  | cons inc incs ih =>
    have h1 : (mmc_sd_sec_inc_err_count_update e inc.1 inc.2).first_issue_time =
        e.first_issue_time := by
      rw [update_first_issue_time, if_neg h]
    have h2 := ih (mmc_sd_sec_inc_err_count_update e inc.1 inc.2) (by rw [h1]; exact h)
    simp only [run_slot_updates, List.foldl_cons] at h2 ⊢
    rw [h2, h1]

/-- The last-command timestamp after `mmc_sd_sec_log_err_count`: only a status poll that is
flagged busy-stuck changes it. -/
theorem log_err_count_tstamp (env : Env) (card : mmc_card) (mrq : mmc_request)
    (cmd : mmc_command) (s : mmc_sd_sec_device_info) :
    (mmc_sd_sec_log_err_count env card mrq cmd s).tstamp_last_cmd =
      (if cmd.opcode = MMC_SEND_STATUS ∧
          mmc_sd_sec_check_busy_stuck s.tstamp_last_cmd env.jiffies_chk
            (env.msecs_to_jiffies MMC_BLK_TIMEOUT_MS) (mrq_status mrq cmd) = true
        then env.jiffies_upd else s.tstamp_last_cmd) := by
  rw [log_err_count_stages]
  generalize mrq_status mrq cmd = st
  have a0 := log_stage_status_err_info env card st s
  generalize log_stage_status env card st s = x0 at a0 ⊢
  have a1 := log_stage_error_keeps env st SD_CMD_OFFSET cmd.error x0
  generalize log_stage_error env st SD_CMD_OFFSET cmd.error x0 = x1 at a1 ⊢
  have a2 := log_stage_error_keeps env st SD_SBC_OFFSET (cmd_error mrq.sbc) x1
  generalize log_stage_error env st SD_SBC_OFFSET (cmd_error mrq.sbc) x1 = x2 at a2 ⊢
  have a3 := log_stage_error_keeps env st SD_DATA_OFFSET (data_error mrq.data) x2
  generalize log_stage_error env st SD_DATA_OFFSET (data_error mrq.data) x2 = x3 at a3 ⊢
  have a4 := log_stage_error_keeps env st SD_STOP_OFFSET (cmd_error mrq.stop) x3
  generalize log_stage_error env st SD_STOP_OFFSET (cmd_error mrq.stop) x3 = x4 at a4 ⊢
  have hts : x4.tstamp_last_cmd = s.tstamp_last_cmd := by
    rw [a4.1, a3.1, a2.1, a1.1, a0.2]
  unfold log_stage_busy
  rw [hts]
  by_cases hop : cmd.opcode = MMC_SEND_STATUS
  · by_cases hb : mmc_sd_sec_check_busy_stuck s.tstamp_last_cmd env.jiffies_chk
        (env.msecs_to_jiffies MMC_BLK_TIMEOUT_MS) st = true
    · simp [hop, hb]
    · simp [hop, hb, hts]
  · simp [hop, hts]

theorem init_err_count_loop_initialised (t : List mmc_sd_sec_err_info)
    (h : t.length = MAX_LOG_INDEX) :
    table_initialised (mmc_sd_sec_init_err_count_loop t MAX_LOG_INDEX 0) := by
  obtain ⟨e0, e1, e2, e3, e4, e5, e6, e7, e8, e9, rfl⟩ := length_ten_cases t h
  unfold table_initialised
  rw [init_err_types_eq]
  simp [mmc_sd_sec_init_err_count_loop, MAX_LOG_INDEX, MAX_REQ_TYPE_INDEX, MAX_ERR_TYPE_INDEX,
    EILSEQ, ETIMEDOUT]

theorem table_initialised_length (t : List mmc_sd_sec_err_info) (h : table_initialised t) :
    t.length = MAX_LOG_INDEX := by
  obtain ⟨e0, e1, e2, e3, e4, e5, e6, e7, e8, e9, rfl, _⟩ := table_initialised_cases t h
  rfl

theorem clear_err_count_initialised (s : mmc_sd_sec_device_info)
    (h : table_initialised s.err_info) :
    table_initialised (mmc_sd_sec_clear_err_count s).err_info := by
  rw [clear_err_count_eq s (table_initialised_length _ h)]
  unfold table_initialised at h ⊢
  simp only [List.map_map]
  exact h

theorem session_step_initialised (s : mmc_sd_sec_device_info) (ev : session_event)
    (h : table_initialised s.err_info) : table_initialised (session_step s ev).err_info := by
  cases ev with
  | request r =>
    have hf := (check_req_err_frame r.env r.host r.mrq s).2.2
    unfold table_initialised at h ⊢
    simp only [session_step]
    rw [hf, h]
  | card c =>
    simp only [session_step]
    rcases hh : c.host with _ | host
    · exact h
    · by_cases hp : presence c.cd = s.tray_status
      · rw [card_event_same _ _ _ hp]
        exact h
      · rw [card_event_flip _ _ _ hp]
        exact clear_err_count_initialised _ h

theorem run_session_initialised (evs : List session_event) (s : mmc_sd_sec_device_info)
    (h : table_initialised s.err_info) : table_initialised (run_session evs s).err_info := by
  induction evs generalizing s with
  | nil => exact h
  | cons ev evs ih => exact ih (session_step s ev) (session_step_initialised s ev h)

/-- On an initialised table the search loop stops at the slot of the normalised code. -/
theorem search_initialised (t : List mmc_sd_sec_err_info) (h : table_initialised t)
    (i : Nat) (hi : i < MAX_REQ_TYPE_INDEX) (error : Int) :
    mmc_sd_sec_inc_err_count_search t (MAX_ERR_TYPE_INDEX * i) (normalised_error error)
        MAX_ERR_TYPE_INDEX 0 =
      (if error = -EILSEQ then (MAX_ERR_TYPE_INDEX * i, 0)
        else (MAX_ERR_TYPE_INDEX * i + 1, 1)) ∧
    (t[if error = -EILSEQ then MAX_ERR_TYPE_INDEX * i else MAX_ERR_TYPE_INDEX * i + 1]?).map
        (fun e => e.err_type) = some (normalised_error error) := by
  obtain ⟨e0, e1, e2, e3, e4, e5, e6, e7, e8, e9, rfl, h0, h1, h2, h3, h4, h5, h6, h7, h8, h9⟩ :=
    table_initialised_cases t h
  simp only [MAX_REQ_TYPE_INDEX] at hi
  rw [search_two]
  by_cases he : error = -EILSEQ
  · subst he
    interval_cases i <;>
    simp [normalised_error, EILSEQ, ETIMEDOUT, MAX_ERR_TYPE_INDEX, h0, h1, h2, h3, h4, h5, h6,
      h7, h8, h9]
  · have he2 : ¬ error = -84 := he
    interval_cases i <;>
    simp [normalised_error, EILSEQ, ETIMEDOUT, MAX_ERR_TYPE_INDEX, h0, h1, h2, h3, h4, h5, h6,
      h7, h8, h9, he2]

theorem init_err_count_table_initialised (s : mmc_sd_sec_device_info)
    (h : s.err_info.length = MAX_LOG_INDEX) :
    table_initialised (mmc_sd_sec_init_err_count s).err_info := by
  have h2 := init_err_count_loop_initialised s.err_info h
  unfold mmc_sd_sec_init_err_count
  dsimp only
  exact h2

theorem cmd_type_small :
    ∀ x, x ≤ 96 → x &&& 96 = x →
      ((x &&& 64 = 0 ↔ (x = 0 ∨ x = 32)) ∧ (x &&& 64 ≠ 0 ↔ (x = 64 ∨ x = 96))) := by
  decide

/-- The test `flags & MMC_CMD_BC` of `mmc_sd_sec_check_cmd_type` is zero exactly for the
command types AC and ADTC and non-zero exactly for BC and BCR. -/
theorem cmd_type_field (flags : Nat) :
    (flags &&& MMC_CMD_BC = 0 ↔
      (flags &&& MMC_CMD_MASK = MMC_CMD_AC ∨ flags &&& MMC_CMD_MASK = MMC_CMD_ADTC)) ∧
    (flags &&& MMC_CMD_BC ≠ 0 ↔
      (flags &&& MMC_CMD_MASK = MMC_CMD_BC ∨ flags &&& MMC_CMD_MASK = MMC_CMD_BCR)) := by
  have c1 : (96 : Nat) &&& 64 = 64 := by decide
  have c2 : (96 : Nat) &&& 96 = 96 := by decide
  have h1 : flags &&& 64 = (flags &&& 96) &&& 64 := by
    rw [Nat.and_assoc, c1]
  have h2 : (flags &&& 96) &&& 96 = flags &&& 96 := by
    rw [Nat.and_assoc, c2]
  have h3 : flags &&& 96 ≤ 96 := Nat.and_le_right
  have key := cmd_type_small (flags &&& 96) h3 h2
  unfold MMC_CMD_BC MMC_CMD_MASK MMC_CMD_AC MMC_CMD_ADTC MMC_CMD_BCR
  rw [h1]
  exact key

/-- The count of slot `j` after `mmc_sd_sec_inc_err_count`: unchanged, or incremented when
`j` is one of the two slots of the phase. -/
theorem inc_err_count_count_cases (index : Nat) (error : Int) (status : Nat)
    (clk : Nat × Nat) (t : List mmc_sd_sec_err_info) (j : Nat) :
    count_at (mmc_sd_sec_inc_err_count index error status clk t) j = count_at t j ∨
    (index ≤ j ∧ j < index + MAX_ERR_TYPE_INDEX ∧
      count_at (mmc_sd_sec_inc_err_count index error status clk t) j =
        (count_at t j + 1) % U32_MOD) := by
  rcases inc_err_count_cases index error status clk t with h | ⟨k, e, h1, h2, hk, h⟩
  · left
    rw [h]
  · rw [h, count_at_set t k e _ hk]
    by_cases hj : j = k
    · subst hj
      right
      refine ⟨h1, h2, ?_⟩
      rw [if_pos rfl, update_count]
      simp [count_at, hk]
    · left
      rw [if_neg hj]

theorem log_stage_error_count_cases (env : Env) (status offset : Nat) (error : Int)
    (s : mmc_sd_sec_device_info) (j : Nat) :
    count_at (log_stage_error env status offset error s).err_info j = count_at s.err_info j ∨
    (offset ≤ j ∧ j < offset + MAX_ERR_TYPE_INDEX ∧
      count_at (log_stage_error env status offset error s).err_info j =
        (count_at s.err_info j + 1) % U32_MOD) := by
  unfold log_stage_error
  exact inc_err_count_count_cases _ _ _ _ _ _

theorem log_stage_busy_count_cases (env : Env) (status : Nat) (cmd : mmc_command)
    (s : mmc_sd_sec_device_info) (j : Nat) :
    count_at (log_stage_busy env status cmd s).err_info j = count_at s.err_info j ∨
    (SD_BUSY_OFFSET ≤ j ∧ j < SD_BUSY_OFFSET + MAX_ERR_TYPE_INDEX ∧
      count_at (log_stage_busy env status cmd s).err_info j =
        (count_at s.err_info j + 1) % U32_MOD) := by
  unfold log_stage_busy
  split_ifs
  · exact Or.inl rfl
  · exact inc_err_count_count_cases SD_BUSY_OFFSET (-ETIMEDOUT) status
      (env.cpu_clock SD_BUSY_OFFSET) s.err_info j
  · exact Or.inl rfl

/-- Five updates in a row, each of which may increment only within its own range of two
slots, change a value by at most one increment. -/
theorem chain_of_five (m j c0 c1 c2 c3 c4 c5 : Nat)
    (h1 : c1 = c0 ∨ (2 ≤ j ∧ j < 2 + 2 ∧ c1 = (c0 + 1) % m))
    (h2 : c2 = c1 ∨ (0 ≤ j ∧ j < 0 + 2 ∧ c2 = (c1 + 1) % m))
    (h3 : c3 = c2 ∨ (4 ≤ j ∧ j < 4 + 2 ∧ c3 = (c2 + 1) % m))
    (h4 : c4 = c3 ∨ (6 ≤ j ∧ j < 6 + 2 ∧ c4 = (c3 + 1) % m))
    (h5 : c5 = c4 ∨ (8 ≤ j ∧ j < 8 + 2 ∧ c5 = (c4 + 1) % m)) :
    c5 = c0 ∨ c5 = (c0 + 1) % m := by
  rcases h1 with h1 | ⟨a1, b1, h1⟩ <;> rcases h2 with h2 | ⟨a2, b2, h2⟩ <;>
  rcases h3 with h3 | ⟨a3, b3, h3⟩ <;> rcases h4 with h4 | ⟨a4, b4, h4⟩ <;>
  rcases h5 with h5 | ⟨a5, b5, h5⟩ <;>
  first
  | (exfalso; omega)
  | (left; subst h5 h4 h3 h2 h1; rfl)
  | (right; subst h5 h4 h3 h2 h1; rfl)

/-- The count of every slot after `mmc_sd_sec_log_err_count`: unchanged or incremented
once. -/
theorem log_err_count_count_cases (env : Env) (card : mmc_card) (mrq : mmc_request)
    (cmd : mmc_command) (s : mmc_sd_sec_device_info) (j : Nat) :
    count_at (mmc_sd_sec_log_err_count env card mrq cmd s).err_info j = count_at s.err_info j ∨
    count_at (mmc_sd_sec_log_err_count env card mrq cmd s).err_info j =
      (count_at s.err_info j + 1) % U32_MOD := by
  rw [log_err_count_stages]
  generalize mrq_status mrq cmd = st
  have a0 := (log_stage_status_err_info env card st s).1
  generalize log_stage_status env card st s = x0 at a0 ⊢
  have a1 := log_stage_error_count_cases env st SD_CMD_OFFSET cmd.error x0 j
  generalize log_stage_error env st SD_CMD_OFFSET cmd.error x0 = x1 at a1 ⊢
  have a2 := log_stage_error_count_cases env st SD_SBC_OFFSET (cmd_error mrq.sbc) x1 j
  generalize log_stage_error env st SD_SBC_OFFSET (cmd_error mrq.sbc) x1 = x2 at a2 ⊢
  have a3 := log_stage_error_count_cases env st SD_DATA_OFFSET (data_error mrq.data) x2 j
  generalize log_stage_error env st SD_DATA_OFFSET (data_error mrq.data) x2 = x3 at a3 ⊢
  have a4 := log_stage_error_count_cases env st SD_STOP_OFFSET (cmd_error mrq.stop) x3 j
  generalize log_stage_error env st SD_STOP_OFFSET (cmd_error mrq.stop) x3 = x4 at a4 ⊢
  have a5 := log_stage_busy_count_cases env st cmd x4 j
  generalize log_stage_busy env st cmd x4 = x5 at a5 ⊢
  rw [a0] at a1
  exact chain_of_five U32_MOD j _ _ _ _ _ _ a1 a2 a3 a4 a5

theorem log_err_count_status_err_cases (env : Env) (card : mmc_card) (mrq : mmc_request)
    (cmd : mmc_command) (s : mmc_sd_sec_device_info) :
    (mmc_sd_sec_log_err_count env card mrq cmd s).status_err = s.status_err ∨
    ∃ st, (mmc_sd_sec_log_err_count env card mrq cmd s).status_err =
      (mmc_sd_sec_inc_status_err_counters s.status_err st).1 := by
  have h : (mmc_sd_sec_log_err_count env card mrq cmd s).status_err =
      (log_stage_status env card (mrq_status mrq cmd) s).status_err := by
    rw [log_err_count_stages]
    unfold log_stage_busy
    split_ifs <;> rfl
  rw [h]
  unfold log_stage_status
  split_ifs
  · exact Or.inr ⟨_, inc_status_err_status_err _ _ _ _⟩
  · exact Or.inl rfl

/-- What a request completion does to the counters: every slot count is unchanged or
incremented once, and the status counters are unchanged or the result of one pass of
`mmc_sd_sec_inc_status_err`. -/
theorem check_req_err_counter_cases (env : Env) (host : mmc_host) (mrq : Option mmc_request)
    (s : mmc_sd_sec_device_info) :
    (∀ j, count_at (mmc_sd_sec_check_req_err env host mrq s).err_info j =
        count_at s.err_info j ∨
      count_at (mmc_sd_sec_check_req_err env host mrq s).err_info j =
        (count_at s.err_info j + 1) % U32_MOD) ∧
    ((mmc_sd_sec_check_req_err env host mrq s).status_err = s.status_err ∨
      ∃ st, (mmc_sd_sec_check_req_err env host mrq s).status_err =
        (mmc_sd_sec_inc_status_err_counters s.status_err st).1) := by
  rcases hcard : host.card with _ | card
  · rw [check_req_err_skip _ _ _ _ (Or.inl hcard)]
    exact ⟨fun _ => Or.inl rfl, Or.inl rfl⟩
  rcases mrq with _ | mrq
  · rw [check_req_err_skip _ _ _ _ (Or.inr (Or.inl rfl))]
    exact ⟨fun _ => Or.inl rfl, Or.inl rfl⟩
  rcases hcmd : mrq.cmd with _ | cmd
  · rw [check_req_err_skip _ _ _ _ (Or.inr (Or.inr ⟨mrq, rfl, hcmd⟩))]
    exact ⟨fun _ => Or.inl rfl, Or.inl rfl⟩
  rw [check_req_err_some _ _ _ _ _ _ hcard hcmd]
  split_ifs <;>
  first
  | exact ⟨fun _ => Or.inl rfl, Or.inl rfl⟩
  | exact ⟨fun j => log_err_count_count_cases env card mrq cmd s j,
      log_err_count_status_err_cases env card mrq cmd s⟩
  | exact ⟨fun j => log_err_count_count_cases env card mrq cmd
        { s with tstamp_last_cmd := env.jiffies_cmd } j,
      log_err_count_status_err_cases env card mrq cmd
        { s with tstamp_last_cmd := env.jiffies_cmd }⟩

/-- Every counter is unchanged or incremented once (modulo `2 ^ 32`) by one event of an
epoch. -/
theorem epoch_step_counter_cases (s : mmc_sd_sec_device_info) (ev : epoch_event) (i : Nat) :
    counter_value (epoch_step s ev) i = counter_value s i ∨
    counter_value (epoch_step s ev) i = (counter_value s i + 1) % U32_MOD := by
  cases ev with
  | request r =>
    obtain ⟨hslots, hstat⟩ := check_req_err_counter_cases r.env r.host r.mrq s
    simp only [epoch_step]
    rcases i with _ | _ | _ | _ | _ | _ | j
    all_goals simp only [counter_value]
    case succ.succ.succ.succ.succ.succ => exact hslots j
    all_goals
      rcases hstat with h | ⟨st, h⟩
      · rw [h]
        exact Or.inl rfl
      · rw [h, counters_fst]
        dsimp only
        first
        | exact Or.inl rfl
        | (split_ifs
           · exact Or.inr rfl
           · exact Or.inl rfl)
  | noti_work host ret =>
    simp only [epoch_step, sd_sec_sdcard_noti_work]
    cases host.card with
    | none => exact Or.inl rfl
    | some c =>
      rcases i with _ | _ | _ | _ | _ | _ | j
      all_goals simp only [counter_value]
      all_goals first
        | exact Or.inl rfl
        | exact Or.inr rfl
        | (split_ifs <;> first | exact Or.inl rfl | exact Or.inr rfl)

theorem run_epoch_append (evs1 evs2 : List epoch_event) (s : mmc_sd_sec_device_info) :
    run_epoch (evs1 ++ evs2) s = run_epoch evs2 (run_epoch evs1 s) := by
  simp [run_epoch, List.foldl_append]

/-- One event of an epoch keeps a counter that holds a 32-bit value within 32 bits. -/
theorem epoch_step_counter_repr (s : mmc_sd_sec_device_info) (ev : epoch_event) (i : Nat)
    (h : counter_value s i ≤ UINT_MAX) : counter_value (epoch_step s ev) i ≤ UINT_MAX := by
  rcases epoch_step_counter_cases s ev i with hc | hc
  · rw [hc]
    exact h
  · rw [hc]
    simp only [UINT_MAX, U32_MOD]
    omega

/-- A run of epoch events keeps a counter that holds a 32-bit value within 32 bits. -/
theorem run_epoch_counter_repr (evs : List epoch_event) (s : mmc_sd_sec_device_info)
    (i : Nat) (h : counter_value s i ≤ UINT_MAX) :
    counter_value (run_epoch evs s) i ≤ UINT_MAX := by
  induction evs generalizing s with
  | nil => exact h
  | cons ev evs ih => exact ih (epoch_step s ev) (epoch_step_counter_repr s ev i h)

/-- Along a run in which counter `i` is never incremented while it holds `UINT_MAX`, that
counter does not end below its initial value. -/
theorem run_epoch_counter_monotone (evs : List epoch_event) (s : mmc_sd_sec_device_info)
    (i : Nat) (hrepr : counter_value s i ≤ UINT_MAX)
    (hnowrap : ∀ pre ev post, evs = pre ++ ev :: post →
      counter_value (run_epoch pre s) i = UINT_MAX →
      counter_value (run_epoch (pre ++ [ev]) s) i = UINT_MAX) :
    counter_value s i ≤ counter_value (run_epoch evs s) i := by
  induction evs generalizing s with
  | nil => exact Nat.le_refl _
  | cons ev evs ih =>
    have hstep : counter_value s i ≤ counter_value (epoch_step s ev) i := by
      rcases epoch_step_counter_cases s ev i with h | h
      · rw [h]
      · by_cases hfull : counter_value s i = UINT_MAX
        · have hw := hnowrap [] ev evs rfl hfull
          have hw2 : counter_value (epoch_step s ev) i = UINT_MAX := hw
          rw [hw2]
          exact hrepr
        · rw [h]
          simp only [UINT_MAX] at hrepr hfull
          simp only [U32_MOD]
          omega
    have hrest := ih (epoch_step s ev) (epoch_step_counter_repr s ev i hrepr)
      (fun pre e post hsplit hfull => by
        have := hnowrap (ev :: pre) e post (by rw [hsplit]; rfl)
          (by simpa [run_epoch] using hfull)
        simpa [run_epoch] using this)
    simp only [run_epoch, List.foldl_cons] at hrest ⊢
    exact Nat.le_trans hstep hrest

/-- A one-element list splits around an element in one way only. -/
theorem singleton_split {α : Type} (x ev : α) (pre post : List α)
    (h : [] ++ [x] = pre ++ ev :: post) : pre = [] ∧ ev = x := by
  cases pre with
  | nil =>
    simp only [List.nil_append, List.cons.injEq] at h
    exact ⟨rfl, h.1.symm⟩
  | cons p pre =>
    have hl := congrArg List.length h
    simp at hl

/-! ## Theorems -/

/-- C1: on an initialised error table and for each of the five phase offsets,
`mmc_sd_sec_inc_err_count` with error 0 returns the table unchanged; with a non-zero error
code it increments (as the unsigned 32-bit `count++` of the source) the count of exactly
one slot, the phase's `-EILSEQ` (DataCorruption) slot at `index` when the code is `-EILSEQ`
and the phase's `-ETIMEDOUT` (Timeout) slot at `index + 1` for every other non-zero code,
and every other slot of the table is left as it was. -/
theorem inc_err_count_classifies (err_log : List mmc_sd_sec_err_info)
    (hinit : table_initialised err_log) (index : Nat) (hidx : index ∈ phase_offsets)
    (error : Int) (status : Nat) (clk : Nat × Nat) :
    (error = 0 → mmc_sd_sec_inc_err_count index error status clk err_log = err_log) ∧
    (error ≠ 0 →
      count_at (mmc_sd_sec_inc_err_count index error status clk err_log)
          (if error = -EILSEQ then index else index + 1) =
        (count_at err_log (if error = -EILSEQ then index else index + 1) + 1) % U32_MOD ∧
      (err_log[if error = -EILSEQ then index else index + 1]?).map (fun e => e.err_type) =
        some (if error = -EILSEQ then -EILSEQ else -ETIMEDOUT) ∧
      ∀ j, j ≠ (if error = -EILSEQ then index else index + 1) →
        (mmc_sd_sec_inc_err_count index error status clk err_log)[j]? = err_log[j]?) := by
  obtain ⟨i, hi, rfl⟩ := phase_offsets_cases index hidx
  refine ⟨fun h => by simp [mmc_sd_sec_inc_err_count, h], fun hne => ?_⟩
  by_cases he : error = -EILSEQ
  · subst he
    obtain ⟨e, hget, hty, heq⟩ := inc_err_count_eilseq err_log hinit i hi status clk
    simp only [if_true]
    rw [heq]
    refine ⟨?_, ?_, fun j hj => List.getElem?_set_ne (Ne.symm hj)⟩
    · rw [count_at_set err_log _ e _ hget, if_pos rfl, update_count]
      simp [count_at, hget]
    · simp [hget, hty]
  · obtain ⟨e, hget, hty, heq⟩ := inc_err_count_other err_log hinit i hi error hne he status clk
    simp only [if_neg he]
    rw [heq]
    refine ⟨?_, ?_, fun j hj => List.getElem?_set_ne (Ne.symm hj)⟩
    · rw [count_at_set err_log _ e _ hget, if_pos rfl, update_count]
      simp [count_at, hget]
    · simp [hget, hty]

/-- Witness for C1: on the table of the zero-initialised `sdi` after
`mmc_sd_sec_init_err_count`, `-EILSEQ` on the data phase gives data/DataCorruption = 1 and
data/Timeout = 0. -/
theorem inc_err_count_classifies_witness :
    table_initialised sdi_boot.err_info ∧
    count_at (mmc_sd_sec_inc_err_count SD_DATA_OFFSET (-EILSEQ) 0 (7, 8) sdi_boot.err_info)
      SD_DATA_OFFSET = 1 ∧
    count_at (mmc_sd_sec_inc_err_count SD_DATA_OFFSET (-EILSEQ) 0 (7, 8) sdi_boot.err_info)
      (SD_DATA_OFFSET + 1) = 0 := by
  have h := (inc_err_count_classifies sdi_boot.err_info (by decide) SD_DATA_OFFSET (by decide)
    (-EILSEQ) 0 (7, 8)).2 (by decide)
  simp only [if_true] at h
  refine ⟨by decide, ?_, ?_⟩
  · rw [h.1]
    decide
  · unfold count_at
    rw [h.2.2 (SD_DATA_OFFSET + 1) (by decide)]
    decide

/-- C2: evaluation of `mmc_sd_sec_inc_status_err` at the input where the claim fails. With
`ge_cnt = UINT_MAX` and a status word carrying `R1_ERROR`, the 32-bit counter wraps to 0,
which is not a positive multiple of 1000, yet the function raises `noti` and, with an SD
card and a registered notification device, schedules the work; `sd_sec_sdcard_uevent`,
which does test for non-zero, then reports "NO" on the resulting counters. -/
theorem inc_status_err_wrap_notifies :
    mmc_sd_sec_inc_status_err_counters ⟨UINT_MAX, 0, 0, 0, 0, 0⟩ R1_ERROR =
      (⟨0, 0, 0, 0, 0, 0⟩, true) ∧
    (mmc_sd_sec_inc_status_err true ⟨MMC_TYPE_SD⟩ R1_ERROR
      { sdi_boot with status_err := ⟨UINT_MAX, 0, 0, 0, 0, 0⟩ }).noti_work_scheduled = 1 ∧
    sd_sec_sdcard_uevent ⟨some ⟨MMC_TYPE_SD⟩, 0⟩
      (mmc_sd_sec_inc_status_err true ⟨MMC_TYPE_SD⟩ R1_ERROR
        { sdi_boot with status_err := ⟨UINT_MAX, 0, 0, 0, 0, 0⟩ }) = "NO" := by
  decide

/-- C3: for every status word, `mmc_sd_sec_inc_status_err` increments (as the unsigned
32-bit `++` of the source) each of `ge_cnt`, `cc_cnt`, `ecc_cnt`, `wp_cnt`, `oor_cnt` when
its own bit is set and leaves it unchanged when the bit is clear, whatever the other four
bits are; `noti_cnt` is never touched; and a status word with none of the five bits set
(equivalently, with `status & STATUS_MASK` zero, the guard of `mmc_sd_sec_log_err_count`)
leaves the whole state unchanged, so no counter changes and nothing is scheduled. -/
theorem inc_status_err_per_bit (dev : Bool) (card : mmc_card) (status : Nat)
    (sdi : mmc_sd_sec_device_info) :
    (mmc_sd_sec_inc_status_err dev card status sdi).status_err.ge_cnt =
      (if status &&& R1_ERROR ≠ 0 then (sdi.status_err.ge_cnt + 1) % U32_MOD
        else sdi.status_err.ge_cnt) ∧
    (mmc_sd_sec_inc_status_err dev card status sdi).status_err.cc_cnt =
      (if status &&& R1_CC_ERROR ≠ 0 then (sdi.status_err.cc_cnt + 1) % U32_MOD
        else sdi.status_err.cc_cnt) ∧
    (mmc_sd_sec_inc_status_err dev card status sdi).status_err.ecc_cnt =
      (if status &&& R1_CARD_ECC_FAILED ≠ 0 then (sdi.status_err.ecc_cnt + 1) % U32_MOD
        else sdi.status_err.ecc_cnt) ∧
    (mmc_sd_sec_inc_status_err dev card status sdi).status_err.wp_cnt =
      (if status &&& R1_WP_VIOLATION ≠ 0 then (sdi.status_err.wp_cnt + 1) % U32_MOD
        else sdi.status_err.wp_cnt) ∧
    (mmc_sd_sec_inc_status_err dev card status sdi).status_err.oor_cnt =
      (if status &&& R1_OUT_OF_RANGE ≠ 0 then (sdi.status_err.oor_cnt + 1) % U32_MOD
        else sdi.status_err.oor_cnt) ∧
    (mmc_sd_sec_inc_status_err dev card status sdi).status_err.noti_cnt =
      sdi.status_err.noti_cnt ∧
    ((status &&& R1_ERROR = 0 ∧ status &&& R1_CC_ERROR = 0 ∧
        status &&& R1_CARD_ECC_FAILED = 0 ∧ status &&& R1_WP_VIOLATION = 0 ∧
        status &&& R1_OUT_OF_RANGE = 0) →
      mmc_sd_sec_inc_status_err dev card status sdi = sdi) ∧
    (status &&& STATUS_MASK = 0 ↔
      (status &&& R1_ERROR = 0 ∧ status &&& R1_CC_ERROR = 0 ∧
        status &&& R1_CARD_ECC_FAILED = 0 ∧ status &&& R1_WP_VIOLATION = 0 ∧
        status &&& R1_OUT_OF_RANGE = 0)) := by
  rw [inc_status_err_status_err, counters_fst]
  refine ⟨rfl, rfl, rfl, rfl, rfl, rfl, ?_, status_mask_zero_iff status⟩
  rintro ⟨h1, h2, h3, h4, h5⟩
  have hs : (mmc_sd_sec_inc_status_err_counters sdi.status_err status).2 = false := by
    rw [← Bool.not_eq_true, counters_snd]
    simp [h1, h3, h4, h5]
  have hc := counters_fst sdi.status_err status
  simp only [h1, h2, h3, h4, h5, ne_eq, not_true_eq_false, if_false] at hc
  unfold mmc_sd_sec_inc_status_err
  simp [hs, hc]

/-- Witness for C3: the status word 0 on the freshly initialised `sdi`. -/
theorem inc_status_err_per_bit_witness :
    mmc_sd_sec_inc_status_err true ⟨MMC_TYPE_SD⟩ 0 sdi_boot = sdi_boot :=
  (inc_status_err_per_bit true ⟨MMC_TYPE_SD⟩ 0 sdi_boot).2.2.2.2.2.2.1
    ⟨by decide, by decide, by decide, by decide, by decide⟩

/-- C5: `sd_sec_card_event` is a no-op when the observed presence equals the stored
`tray_status`: the whole of `sdi` (error table, status counters, `card_detect_cnt`,
`tray_status`) and the host are returned unchanged. Hence, after a first call that observed
some presence and any request completions that followed it, a second call observing the
same presence changes nothing, so only the first call can reset counters and the errors
counted in between survive. -/
theorem card_event_same_presence_noop (host1 : mmc_host) (cd1 cd2 : Int)
    (host2 : Option mmc_host) (s0 : mmc_sd_sec_device_info) (evs : List req_event)
    (hsame : presence cd2 = presence cd1) :
    (∀ sdi : mmc_sd_sec_device_info, presence cd2 = sdi.tray_status →
      sd_sec_card_event host2 cd2 sdi = (host2, sdi)) ∧
    sd_sec_card_event host2 cd2 (run_requests evs (sd_sec_card_event (some host1) cd1 s0).2) =
      (host2, run_requests evs (sd_sec_card_event (some host1) cd1 s0).2) := by
  refine ⟨fun sdi h => card_event_same host2 cd2 sdi h, ?_⟩
  apply card_event_same
  rw [(run_requests_frame evs _).1, card_event_tray_status, hsame]

/-- Witness for C5: a card insertion, a status poll that is counted as busy-stuck, and a
second event that still sees the card; the busy-check count of 1 survives. -/
theorem card_event_same_presence_noop_witness :
    count_at (sd_sec_card_event (some example_host) 1
      (run_requests
        [⟨example_env 2275, example_host, some (example_request example_poll_prg)⟩]
        (sd_sec_card_event (some example_host) 1 sdi_boot).2)).2.err_info
      (SD_BUSY_OFFSET + 1) = 1 := by
  rw [(card_event_same_presence_noop example_host 1 1 (some example_host) sdi_boot
    [⟨example_env 2275, example_host, some (example_request example_poll_prg)⟩] rfl).2]
  decide

/-- C6: after any sequence of request completions followed by a `sd_sec_card_event` call
whose observed presence differs from the stored `tray_status`, every slot of the error
table has count, status snapshot, `first_issue_time` and `last_issue_time` equal to 0, the
six status-error counters are 0, and `tray_status` is the new presence. -/
theorem card_event_flip_resets (evs : List req_event) (s0 : mmc_sd_sec_device_info)
    (host : mmc_host) (cd : Int) (hlen : s0.err_info.length = MAX_LOG_INDEX)
    (hflip : presence cd ≠ (run_requests evs s0).tray_status) :
    (sd_sec_card_event (some host) cd (run_requests evs s0)).2.err_info.length =
      MAX_LOG_INDEX ∧
    (∀ e ∈ (sd_sec_card_event (some host) cd (run_requests evs s0)).2.err_info,
      e.count = 0 ∧ e.status = 0 ∧ e.first_issue_time = 0 ∧ e.last_issue_time = 0) ∧
    (sd_sec_card_event (some host) cd (run_requests evs s0)).2.status_err =
      ⟨0, 0, 0, 0, 0, 0⟩ ∧
    (sd_sec_card_event (some host) cd (run_requests evs s0)).2.tray_status = presence cd := by
  have hl : (run_requests evs s0).err_info.length = MAX_LOG_INDEX := by
    rw [run_requests_length, hlen]
  rw [card_event_flip _ _ _ hflip]
  obtain ⟨k1, k2, k3, k4⟩ := clear_err_count_spec
    { run_requests evs s0 with
        tray_status := presence cd
        card_detect_cnt :=
          if (run_requests evs s0).card_detect_cnt < UINT_MAX then
            (run_requests evs s0).card_detect_cnt + 1
          else (run_requests evs s0).card_detect_cnt } hl
  exact ⟨k1, k2, k3, k4⟩

/-- Witness for C6: a busy-stuck status poll is counted, then the card is inserted. -/
theorem card_event_flip_resets_witness :
    (sd_sec_card_event (some example_host) 1
      (run_requests
        [⟨example_env 2275, example_host, some (example_request example_poll_prg)⟩]
        sdi_boot)).2.status_err = ⟨0, 0, 0, 0, 0, 0⟩ :=
  (card_event_flip_resets
    [⟨example_env 2275, example_host, some (example_request example_poll_prg)⟩]
    sdi_boot example_host 1 (by decide) (by decide)).2.2.1

/-- C7: the card-detect transition counter saturates. With `card_detect_cnt` an
`unsigned int`, a presence change sets it to `min (old + 1) UINT_MAX`; along every sequence
of card events it never decreases and never exceeds `UINT_MAX`; and at `UINT_MAX` a further
transition leaves `card_detect_cnt` at `UINT_MAX` while it still resets the error counters:
afterwards every slot of the table has count, status snapshot and both timestamps equal to
0, the six status counters are 0 and `tray_status` is the new presence. -/
theorem card_detect_cnt_saturates (sdi : mmc_sd_sec_device_info)
    (hmax : sdi.card_detect_cnt ≤ UINT_MAX) :
    (∀ (host : mmc_host) (cd : Int), presence cd ≠ sdi.tray_status →
      (sd_sec_card_event (some host) cd sdi).2.card_detect_cnt =
        min (sdi.card_detect_cnt + 1) UINT_MAX) ∧
    (∀ evs1 evs2 : List card_event,
      (run_card_events evs1 sdi).card_detect_cnt ≤
        (run_card_events (evs1 ++ evs2) sdi).card_detect_cnt ∧
      (run_card_events (evs1 ++ evs2) sdi).card_detect_cnt ≤ UINT_MAX) ∧
    (∀ (host : mmc_host) (cd : Int), presence cd ≠ sdi.tray_status →
      sdi.card_detect_cnt = UINT_MAX → sdi.err_info.length = MAX_LOG_INDEX →
      (sd_sec_card_event (some host) cd sdi).2.card_detect_cnt = UINT_MAX ∧
      (sd_sec_card_event (some host) cd sdi).2.err_info.length = MAX_LOG_INDEX ∧
      (∀ e ∈ (sd_sec_card_event (some host) cd sdi).2.err_info,
        e.count = 0 ∧ e.status = 0 ∧ e.first_issue_time = 0 ∧ e.last_issue_time = 0) ∧
      (sd_sec_card_event (some host) cd sdi).2.status_err = ⟨0, 0, 0, 0, 0, 0⟩ ∧
      (sd_sec_card_event (some host) cd sdi).2.tray_status = presence cd) := by
  refine ⟨fun host cd hflip => ?_, fun evs1 evs2 => ?_, fun host cd hflip hfull hlen => ?_⟩
  · rw [card_event_flip _ _ _ hflip]
    simp only [mmc_sd_sec_clear_err_count]
    split_ifs with hlt
    · exact (Nat.min_eq_left hlt).symm
    · have : sdi.card_detect_cnt = UINT_MAX := Nat.le_antisymm hmax (Nat.not_lt.mp hlt)
      rw [this]
      decide
  · rw [run_card_events_append]
    refine ⟨(run_card_events_cnt evs2 _).1, ?_⟩
    exact (run_card_events_cnt evs2 _).2 ((run_card_events_cnt evs1 sdi).2 hmax)
  · have hnot : ¬ sdi.card_detect_cnt < UINT_MAX := by
      rw [hfull]
      exact Nat.lt_irrefl _
    have hev := card_event_flip host cd sdi hflip
    rw [if_neg hnot] at hev
    rw [hev]
    obtain ⟨k1, k2, k3, k4⟩ := clear_err_count_spec
      { sdi with
          tray_status := presence cd
          card_detect_cnt := sdi.card_detect_cnt } hlen
    exact ⟨hfull, k1, k2, k3, k4⟩

/-- Witness for C7: `sdi` has `card_detect_cnt = UINT_MAX`, non-zero status counters and,
after a busy-stuck status poll, a counted slot. A card insertion then leaves the counter
at `UINT_MAX` and resets the status counters and every slot count. -/
theorem card_detect_cnt_saturates_witness :
    (sd_sec_card_event (some example_host) 1
      (run_requests
        [⟨example_env 2275, example_host, some (example_request example_poll_prg)⟩]
        { sdi_boot with
            card_detect_cnt := UINT_MAX
            status_err := ⟨1000, 1, 2, 3, 4, 5⟩ })).2.card_detect_cnt = UINT_MAX ∧
    (sd_sec_card_event (some example_host) 1
      (run_requests
        [⟨example_env 2275, example_host, some (example_request example_poll_prg)⟩]
        { sdi_boot with
            card_detect_cnt := UINT_MAX
            status_err := ⟨1000, 1, 2, 3, 4, 5⟩ })).2.status_err = ⟨0, 0, 0, 0, 0, 0⟩ ∧
    (∀ e ∈ (sd_sec_card_event (some example_host) 1
      (run_requests
        [⟨example_env 2275, example_host, some (example_request example_poll_prg)⟩]
        { sdi_boot with
            card_detect_cnt := UINT_MAX
            status_err := ⟨1000, 1, 2, 3, 4, 5⟩ })).2.err_info, e.count = 0) :=
  have h := (card_detect_cnt_saturates
    (run_requests
      [⟨example_env 2275, example_host, some (example_request example_poll_prg)⟩]
      { sdi_boot with
          card_detect_cnt := UINT_MAX
          status_err := ⟨1000, 1, 2, 3, 4, 5⟩ })
    (by decide)).2.2 example_host 1 (by decide) (by decide) (by decide)
  ⟨h.1, h.2.2.2.1, fun e he => (h.2.2.1 e he).1⟩

/-- C8, the claim as stated fails: well past the timeout (2275 ticks elapsed, timeout 2250
ticks) the status word 0 has `R1_READY_FOR_DATA` clear, so the claim classifies the poll
as busy-stuck, yet `mmc_sd_sec_check_busy_stuck` returns false because of its `status &&`
guard, and the poll is not counted. -/
theorem busy_stuck_zero_status_counterexample :
    (example_env 2275).msecs_to_jiffies MMC_BLK_TIMEOUT_MS <
      jiffies_elapsed (example_env 2275).jiffies_chk sdi_boot.tstamp_last_cmd ∧
    (0 : Nat) &&& R1_READY_FOR_DATA = 0 ∧
    mmc_sd_sec_check_busy_stuck sdi_boot.tstamp_last_cmd (example_env 2275).jiffies_chk
      ((example_env 2275).msecs_to_jiffies MMC_BLK_TIMEOUT_MS) 0 = false ∧
    count_at (mmc_sd_sec_check_req_err (example_env 2275) example_host
      (some (example_request ⟨MMC_SEND_STATUS, 21, 0, 0⟩)) sdi_boot).err_info
      (SD_BUSY_OFFSET + 1) = count_at sdi_boot.err_info (SD_BUSY_OFFSET + 1) := by
  decide

/-- C8 (amended): when more than the 9-second timeout has elapsed since the last
non-status-check command (and fewer than `2 ^ 63` ticks, the range in which the signed
comparison of `time_before` is meaningful), `mmc_sd_sec_check_busy_stuck` classifies a
status poll as
busy-stuck exactly when the status word is non-zero and either has `R1_READY_FOR_DATA`
clear or has its current-state field equal to `R1_STATE_PRG`; and on an initialised table
`mmc_sd_sec_log_err_count` counts a status poll in the busy-check Timeout slot exactly
when it is so classified. -/
theorem busy_stuck_classification (sdi : mmc_sd_sec_device_info) (env : Env)
    (helapsed : env.msecs_to_jiffies MMC_BLK_TIMEOUT_MS <
      jiffies_elapsed env.jiffies_chk sdi.tstamp_last_cmd)
    (hrange : jiffies_elapsed env.jiffies_chk sdi.tstamp_last_cmd < LONG_SIGN) :
    (∀ status : Nat,
      mmc_sd_sec_check_busy_stuck sdi.tstamp_last_cmd env.jiffies_chk
          (env.msecs_to_jiffies MMC_BLK_TIMEOUT_MS) status = true ↔
        status ≠ 0 ∧
          (status &&& R1_READY_FOR_DATA = 0 ∨ R1_CURRENT_STATE status = R1_STATE_PRG)) ∧
    (∀ (card : mmc_card) (mrq : mmc_request) (cmd : mmc_command),
      table_initialised sdi.err_info → cmd.opcode = MMC_SEND_STATUS →
      (sdi.err_info[SD_BUSY_OFFSET + 1]?).map (fun e => e.err_type) = some (-ETIMEDOUT) ∧
      count_at (mmc_sd_sec_log_err_count env card mrq cmd sdi).err_info (SD_BUSY_OFFSET + 1) =
        if mrq_status mrq cmd ≠ 0 ∧
            (mrq_status mrq cmd &&& R1_READY_FOR_DATA = 0 ∨
              R1_CURRENT_STATE (mrq_status mrq cmd) = R1_STATE_PRG)
        then (count_at sdi.err_info (SD_BUSY_OFFSET + 1) + 1) % U32_MOD
        else count_at sdi.err_info (SD_BUSY_OFFSET + 1)) := by
  have hle := Nat.le_of_lt helapsed
  refine ⟨fun status => check_busy_stuck_elapsed _ _ _ status hle hrange, ?_⟩
  intro card mrq cmd hinit hop
  refine ⟨?_, ?_⟩
  · obtain ⟨e0, e1, e2, e3, e4, e5, e6, e7, e8, e9, ht, _, _, _, _, _, _, _, _, _, h9⟩ :=
      table_initialised_cases _ hinit
    rw [ht]
    simp [SD_BUSY_OFFSET, SD_STOP_OFFSET, SD_DATA_OFFSET, SD_CMD_OFFSET, SD_SBC_OFFSET,
      MAX_ERR_TYPE_INDEX, h9, ETIMEDOUT]
  · rw [(log_err_count_busy_slot env card mrq cmd sdi hinit).1]
    simp only [hop, true_and, check_busy_stuck_elapsed _ _ _ _ hle hrange]

/-- Witness for C8 (amended): 2275 ticks after the last command, with a timeout of 2250
ticks, the status word 3584 (programming state, not ready) is classified as busy-stuck. -/
theorem busy_stuck_classification_witness :
    mmc_sd_sec_check_busy_stuck sdi_boot.tstamp_last_cmd (example_env 2275).jiffies_chk
      ((example_env 2275).msecs_to_jiffies MMC_BLK_TIMEOUT_MS) 3584 = true :=
  ((busy_stuck_classification sdi_boot (example_env 2275) (by decide) (by decide)).1
    3584).mpr (by decide)

/-- C9: busy-stuck debounce. Let the last non-status-check command be at `t0` and let a
status poll that passes `mmc_sd_sec_check_cmd_type` (error-free or not) complete at `t1`,
at least the 9-second timeout after `t0` (all times below `2 ^ 63` ticks, so that
`jiffies` does not wrap), with a status word in the programming state. Then
`mmc_sd_sec_check_req_err` increments the busy-check Timeout slot by one (the unsigned
32-bit `count++`) and sets the last-command timestamp to `t1`; and any further status poll
completing at `t2` with `t1 <= t2 < t1 + timeout`, whatever its status word, leaves the
count of that slot as it is. -/
theorem busy_stuck_debounce (sdi : mmc_sd_sec_device_info) (env1 env2 : Env)
    (host1 host2 : mmc_host) (card1 : mmc_card) (mrq1 mrq2 : mmc_request)
    (cmd1 cmd2 : mmc_command) (t0 t1 t2 : Nat)
    (hinit : table_initialised sdi.err_info)
    (ht0 : sdi.tstamp_last_cmd = t0)
    (hcard : host1.card = some card1)
    (hcmd1 : mrq1.cmd = some cmd1) (hop1 : cmd1.opcode = MMC_SEND_STATUS)
    (hfilter : mmc_sd_sec_check_cmd_type cmd1 = true)
    (hprg : R1_CURRENT_STATE (mrq_status mrq1 cmd1) = R1_STATE_PRG)
    (hchk1 : env1.jiffies_chk = t1) (hupd1 : env1.jiffies_upd = t1)
    (hlate : t0 + env1.msecs_to_jiffies MMC_BLK_TIMEOUT_MS ≤ t1)
    (hnowrap : t1 + env1.msecs_to_jiffies MMC_BLK_TIMEOUT_MS < LONG_SIGN)
    (hcmd2 : mrq2.cmd = some cmd2) (hop2 : cmd2.opcode = MMC_SEND_STATUS)
    (hchk2 : env2.jiffies_chk = t2)
    (htimeout : env2.msecs_to_jiffies MMC_BLK_TIMEOUT_MS =
      env1.msecs_to_jiffies MMC_BLK_TIMEOUT_MS)
    (h12 : t1 ≤ t2) (h2 : t2 < t1 + env1.msecs_to_jiffies MMC_BLK_TIMEOUT_MS) :
    count_at (mmc_sd_sec_check_req_err env1 host1 (some mrq1) sdi).err_info
        (SD_BUSY_OFFSET + 1) =
      (count_at sdi.err_info (SD_BUSY_OFFSET + 1) + 1) % U32_MOD ∧
    (mmc_sd_sec_check_req_err env1 host1 (some mrq1) sdi).tstamp_last_cmd = t1 ∧
    count_at (mmc_sd_sec_check_req_err env2 host2 (some mrq2)
        (mmc_sd_sec_check_req_err env1 host1 (some mrq1) sdi)).err_info
        (SD_BUSY_OFFSET + 1) =
      count_at (mmc_sd_sec_check_req_err env1 host1 (some mrq1) sdi).err_info
        (SD_BUSY_OFFSET + 1) := by
  have hM : LONG_SIGN < ULONG_MOD := by decide
  have hst : mrq_status mrq1 cmd1 ≠ 0 := by
    intro h
    rw [h] at hprg
    revert hprg
    decide
  have hstuck : mmc_sd_sec_check_busy_stuck sdi.tstamp_last_cmd env1.jiffies_chk
      (env1.msecs_to_jiffies MMC_BLK_TIMEOUT_MS) (mrq_status mrq1 cmd1) = true := by
    have he : jiffies_elapsed env1.jiffies_chk sdi.tstamp_last_cmd = t1 - t0 := by
      rw [hchk1, ht0]
      exact jiffies_elapsed_of_le t1 t0 (by omega) (by omega)
    rw [check_busy_stuck_elapsed _ _ _ _ (by rw [he]; omega) (by rw [he]; omega)]
    exact ⟨hst, Or.inr hprg⟩
  have hstep1 : mmc_sd_sec_check_req_err env1 host1 (some mrq1) sdi =
      mmc_sd_sec_log_err_count env1 card1 mrq1 cmd1 sdi := by
    rw [check_req_err_some _ _ _ _ _ _ hcard hcmd1]
    simp [hop1, hfilter, MMC_SEND_STATUS, MMC_SEND_TUNING_BLOCK, MMC_SEND_TUNING_BLOCK_HS200]
  obtain ⟨b1, b2⟩ := log_err_count_busy_slot env1 card1 mrq1 cmd1 sdi hinit
  rw [if_pos ⟨hop1, hstuck⟩] at b1 b2
  rw [hstep1]
  refine ⟨b1, b2.trans hupd1, ?_⟩
  generalize hs1 : mmc_sd_sec_log_err_count env1 card1 mrq1 cmd1 sdi = s1 at b1 b2 ⊢
  have hinit1 : table_initialised s1.err_info := by
    have h := (check_req_err_frame env1 host1 (some mrq1) sdi).2.2
    rw [hstep1, hs1] at h
    unfold table_initialised at hinit ⊢
    rw [h, hinit]
  rcases hcard2 : host2.card with _ | card2
  · rw [check_req_err_skip _ _ _ _ (Or.inl hcard2)]
  rw [check_req_err_some _ _ _ _ _ _ hcard2 hcmd2]
  have hearly : mmc_sd_sec_check_busy_stuck s1.tstamp_last_cmd env2.jiffies_chk
      (env2.msecs_to_jiffies MMC_BLK_TIMEOUT_MS) (mrq_status mrq2 cmd2) = false := by
    have he : jiffies_elapsed env2.jiffies_chk s1.tstamp_last_cmd = t2 - t1 := by
      rw [hchk2, b2, hupd1]
      exact jiffies_elapsed_of_le t2 t1 h12 (by omega)
    apply check_busy_stuck_early
    · rw [he, htimeout]
      omega
    · rw [htimeout]
      omega
  simp only [hop2, ne_eq, not_true_eq_false, if_false]
  split_ifs
  · rfl
  · rw [(log_err_count_busy_slot env2 card2 mrq2 cmd2 s1 hinit1).1, hearly]
    simp
  · rfl

/-- Witness for C9: `HZ = 250`, last command at `t0 = 0`, a first poll at 9.1 s (2275
ticks) and a second one at 9.2 s (2300 ticks), both showing the programming state: the
busy-check Timeout count goes from 0 to 1 at the first poll, the timestamp becomes 2275,
and the second poll leaves the count at 1. -/
theorem busy_stuck_debounce_witness :
    count_at (mmc_sd_sec_check_req_err (example_env 2275) example_host
        (some (example_request example_poll_prg)) sdi_boot).err_info (SD_BUSY_OFFSET + 1) =
      (count_at sdi_boot.err_info (SD_BUSY_OFFSET + 1) + 1) % U32_MOD ∧
    (mmc_sd_sec_check_req_err (example_env 2275) example_host
        (some (example_request example_poll_prg)) sdi_boot).tstamp_last_cmd = 2275 ∧
    count_at (mmc_sd_sec_check_req_err (example_env 2300) example_host
        (some (example_request example_poll_prg))
        (mmc_sd_sec_check_req_err (example_env 2275) example_host
          (some (example_request example_poll_prg)) sdi_boot)).err_info
        (SD_BUSY_OFFSET + 1) =
      count_at (mmc_sd_sec_check_req_err (example_env 2275) example_host
        (some (example_request example_poll_prg)) sdi_boot).err_info (SD_BUSY_OFFSET + 1) :=
  busy_stuck_debounce sdi_boot (example_env 2275) (example_env 2300) example_host
    example_host ⟨MMC_TYPE_SD⟩ (example_request example_poll_prg)
    (example_request example_poll_prg) example_poll_prg example_poll_prg 0 2275 2300
    (by decide) rfl rfl rfl rfl (by decide) (by decide) rfl rfl (by decide) (by decide)
    rfl rfl rfl rfl (by decide) (by decide)

/-- C10 (amended): starting from freshly reset status counters, with an SD card present
and the notification device registered, after `n <= UINT_MAX` consecutive status events
whose only error bit is `R1_ERROR` the number of notification tasks scheduled is
`floor (n / 1000)`, so none after 999 events and exactly one at the 1000th; and whenever
the `n`-th event schedules a notification, `sd_sec_sdcard_uevent` on the resulting counters
with the card present gives "YES". -/
theorem ge_events_notifications (s0 : mmc_sd_sec_device_info) (card : mmc_card)
    (hsd : mmc_card_sd card = true) (statuses : List Nat)
    (honly : ∀ st ∈ statuses, st &&& STATUS_MASK = R1_ERROR)
    (hn : statuses.length ≤ UINT_MAX) :
    (run_status_events true card statuses (mmc_sd_sec_clear_err_count s0)).noti_work_scheduled =
      (mmc_sd_sec_clear_err_count s0).noti_work_scheduled + statuses.length / 1000 ∧
    (statuses.length = 999 →
      (run_status_events true card statuses
        (mmc_sd_sec_clear_err_count s0)).noti_work_scheduled =
        (mmc_sd_sec_clear_err_count s0).noti_work_scheduled) ∧
    (statuses.length = 1000 →
      (run_status_events true card statuses
        (mmc_sd_sec_clear_err_count s0)).noti_work_scheduled =
        (mmc_sd_sec_clear_err_count s0).noti_work_scheduled + 1) ∧
    (∀ (pre : List Nat) (st : Nat) (host : mmc_host), statuses = pre ++ [st] →
      (run_status_events true card statuses
        (mmc_sd_sec_clear_err_count s0)).noti_work_scheduled =
        (run_status_events true card pre
          (mmc_sd_sec_clear_err_count s0)).noti_work_scheduled + 1 →
      host.card.isSome = true →
      sd_sec_sdcard_uevent host
        (run_status_events true card statuses (mmc_sd_sec_clear_err_count s0)) = "YES") := by
  have hz : (mmc_sd_sec_clear_err_count s0).status_err.ge_cnt = 0 := rfl
  have hrun := run_only_ge card hsd statuses honly (mmc_sd_sec_clear_err_count s0)
    (by rw [hz, Nat.zero_add]; exact hn)
  rw [hz] at hrun
  have hsched : (run_status_events true card statuses
      (mmc_sd_sec_clear_err_count s0)).noti_work_scheduled =
      (mmc_sd_sec_clear_err_count s0).noti_work_scheduled + statuses.length / 1000 := by
    rw [hrun]
    simp
  refine ⟨hsched, fun h => ?_, fun h => ?_, ?_⟩
  · rw [hsched, h]
    omega
  · rw [hsched, h]
  · intro pre st host hsplit hstep hcardp
    have hpre := run_only_ge card hsd pre
      (fun x hx => honly x (by rw [hsplit]; exact List.mem_append_left _ hx))
      (mmc_sd_sec_clear_err_count s0)
      (by
        rw [hz, Nat.zero_add]
        have : pre.length ≤ statuses.length := by rw [hsplit]; simp
        exact Nat.le_trans this hn)
    rw [hz] at hpre
    have hlen : statuses.length = pre.length + 1 := by rw [hsplit]; simp
    rw [hsched, hpre] at hstep
    simp only [Nat.zero_add, Nat.zero_div, Nat.sub_zero] at hstep
    have hge : (run_status_events true card statuses
        (mmc_sd_sec_clear_err_count s0)).status_err.ge_cnt = statuses.length := by
      rw [hrun]
      simp
    unfold sd_sec_sdcard_uevent
    simp only [hcardp, if_true, hge]
    rw [if_pos]
    left
    omega

/-- Witness for C10 (amended): 1000 general-error status events on the reset counters of
the freshly initialised `sdi` schedule exactly one notification. -/
theorem ge_events_notifications_witness :
    (run_status_events true ⟨MMC_TYPE_SD⟩ (List.replicate 1000 R1_ERROR)
      (mmc_sd_sec_clear_err_count sdi_boot)).noti_work_scheduled =
      (mmc_sd_sec_clear_err_count sdi_boot).noti_work_scheduled + 1 :=
  (ge_events_notifications sdi_boot ⟨MMC_TYPE_SD⟩ rfl (List.replicate 1000 R1_ERROR)
    (fun st hst => by rw [List.eq_of_mem_replicate hst]; decide)
    (by rw [List.length_replicate]; decide)).2.2.1 (List.length_replicate _ _)


/-- C10, the claim as stated fails for long runs: from freshly reset counters, after
`UINT_MAX + 1 = 2 ^ 32` general-error status events the 32-bit `ge_cnt` has wrapped to 0.
The first `UINT_MAX` events schedule 4294967 notifications, the last one schedules one
more, so the total is 4294968 and not `floor (2 ^ 32 / 1000) = 4294967`; and although the
last event schedules a notification, `sd_sec_sdcard_uevent` reports "NO" with the card
present. -/
theorem ge_events_wrap_counterexample :
    (∀ st ∈ List.replicate (UINT_MAX + 1) R1_ERROR, st &&& STATUS_MASK = R1_ERROR) ∧
    (run_status_events true ⟨MMC_TYPE_SD⟩ (List.replicate UINT_MAX R1_ERROR)
      (mmc_sd_sec_clear_err_count sdi_boot)).noti_work_scheduled = 4294967 ∧
    (run_status_events true ⟨MMC_TYPE_SD⟩ (List.replicate (UINT_MAX + 1) R1_ERROR)
      (mmc_sd_sec_clear_err_count sdi_boot)).noti_work_scheduled = 4294968 ∧
    (mmc_sd_sec_clear_err_count sdi_boot).noti_work_scheduled + (UINT_MAX + 1) / 1000 =
      4294967 ∧
    sd_sec_sdcard_uevent example_host
      (run_status_events true ⟨MMC_TYPE_SD⟩ (List.replicate (UINT_MAX + 1) R1_ERROR)
        (mmc_sd_sec_clear_err_count sdi_boot)) = "NO" := by
  rw [run_wrap_ge_events, run_uint_max_ge_events]
  exact ⟨replicate_only_ge _, rfl, by decide, by decide, by decide⟩

/-- C11: the IOERROR value of `sd_sec_sdcard_uevent` is "NoCard" when no card is present;
with a card present it is "YES" exactly when `ge_cnt` or `ecc_cnt` is a non-zero multiple
of 1000 or `wp_cnt` or `oor_cnt` is a non-zero multiple of 100, and "NO" otherwise; and it
is a function of card presence and of these four counters as they are at query time, so
`cc_cnt`, `noti_cnt` and the rest of `sdi` never influence it. -/
theorem uevent_ioerror_value (host : mmc_host) (sdi : mmc_sd_sec_device_info) :
    (host.card = none → sd_sec_sdcard_uevent host sdi = "NoCard") ∧
    (host.card.isSome = true →
      (sd_sec_sdcard_uevent host sdi = "YES" ↔
        ((sdi.status_err.ge_cnt ≠ 0 ∧ sdi.status_err.ge_cnt % 1000 = 0) ∨
         (sdi.status_err.ecc_cnt ≠ 0 ∧ sdi.status_err.ecc_cnt % 1000 = 0) ∨
         (sdi.status_err.wp_cnt ≠ 0 ∧ sdi.status_err.wp_cnt % 100 = 0) ∨
         (sdi.status_err.oor_cnt ≠ 0 ∧ sdi.status_err.oor_cnt % 100 = 0))) ∧
      (sd_sec_sdcard_uevent host sdi = "NO" ↔
        ¬ ((sdi.status_err.ge_cnt ≠ 0 ∧ sdi.status_err.ge_cnt % 1000 = 0) ∨
         (sdi.status_err.ecc_cnt ≠ 0 ∧ sdi.status_err.ecc_cnt % 1000 = 0) ∨
         (sdi.status_err.wp_cnt ≠ 0 ∧ sdi.status_err.wp_cnt % 100 = 0) ∨
         (sdi.status_err.oor_cnt ≠ 0 ∧ sdi.status_err.oor_cnt % 100 = 0)))) ∧
    (∀ (host2 : mmc_host) (sdi2 : mmc_sd_sec_device_info),
      host2.card.isSome = host.card.isSome →
      sdi2.status_err.ge_cnt = sdi.status_err.ge_cnt →
      sdi2.status_err.ecc_cnt = sdi.status_err.ecc_cnt →
      sdi2.status_err.wp_cnt = sdi.status_err.wp_cnt →
      sdi2.status_err.oor_cnt = sdi.status_err.oor_cnt →
      sd_sec_sdcard_uevent host2 sdi2 = sd_sec_sdcard_uevent host sdi) := by
  have hyn : ("YES" : String) ≠ "NO" := by decide
  refine ⟨fun h => ?_, fun h => ?_, fun host2 sdi2 hc h1 h2 h3 h4 => ?_⟩
  · unfold sd_sec_sdcard_uevent
    simp [h]
  · unfold sd_sec_sdcard_uevent
    simp only [h, if_true]
    constructor
    · split_ifs with hc
      · exact ⟨fun _ => hc, fun _ => rfl⟩
      · exact ⟨fun hx => absurd hx.symm hyn, fun hx => absurd hx hc⟩
    · split_ifs with hc
      · exact ⟨fun hx => absurd hx hyn, fun hx => absurd hc hx⟩
      · exact ⟨fun _ => hc, fun _ => rfl⟩
  · unfold sd_sec_sdcard_uevent
    simp only [hc, h1, h2, h3, h4]

/-- Witness for C11: with a card present and `wp_cnt = 300` the value is "YES", whatever
`cc_cnt` and `noti_cnt` are. -/
theorem uevent_ioerror_value_witness :
    sd_sec_sdcard_uevent example_host
      { sdi_boot with status_err := ⟨1, 7, 999, 300, 0, 5⟩ } = "YES" :=
  ((uevent_ioerror_value example_host
    { sdi_boot with status_err := ⟨1, 7, 999, 300, 0, 5⟩ }).2.1 rfl).1.mpr
    (Or.inr (Or.inr (Or.inl ⟨by decide, by decide⟩)))

/-- C12: the notification task `sd_sec_sdcard_noti_work` re-checks card presence. With no
card it returns `sdi` unchanged and makes no `kobject_uevent` call. With a card it
increments `noti_cnt` by one (the unsigned 32-bit `++`), changes nothing else and makes
exactly one `kobject_uevent` call; the outcome is the same whatever that call returns, so
a failed emission is neither retried nor rolled back. -/
theorem noti_work_rechecks_card (host : mmc_host) (uevent_ret : Int)
    (sdi : mmc_sd_sec_device_info) :
    (host.card = none → sd_sec_sdcard_noti_work host uevent_ret sdi = (sdi, 0)) ∧
    (host.card.isSome = true →
      sd_sec_sdcard_noti_work host uevent_ret sdi =
        ({ sdi with
            status_err :=
              { sdi.status_err with noti_cnt := (sdi.status_err.noti_cnt + 1) % U32_MOD } },
          1)) ∧
    (∀ other_ret : Int,
      sd_sec_sdcard_noti_work host other_ret sdi =
        sd_sec_sdcard_noti_work host uevent_ret sdi) := by
  unfold sd_sec_sdcard_noti_work
  cases hc : host.card with
  | none => simp
  | some c => simp

/-- Witness for C12: with a card present and a failing `kobject_uevent` (return value -12),
`noti_cnt` goes from 0 to 1 and one call is made. -/
theorem noti_work_rechecks_card_witness :
    sd_sec_sdcard_noti_work example_host (-12) sdi_boot =
      ({ sdi_boot with status_err := ⟨0, 0, 0, 0, 0, 1⟩ }, 1) := by
  rw [(noti_work_rechecks_card example_host (-12) sdi_boot).2.1 rfl]
  decide

/-- C15: evaluation of lines 132-134 of `mmc_sd_sec_inc_err_count` at an input where the
claim fails. A slot already incremented in this epoch holds the snapshot 2304 (transfer
state); the next error arrives with status word 3584, whose current-state field is
`R1_STATE_PRG` and not `R1_STATE_TRAN`. The source tests
`R1_CURRENT_STATE(status) & R1_STATE_TRAN`, a bitwise and with 4 that is non-zero for the
states 4 to 7 and 12 to 15, so the old snapshot is kept although the card is not in the
transfer state. -/
theorem snapshot_kept_in_prg_state :
    R1_CURRENT_STATE 3584 = R1_STATE_PRG ∧
    R1_CURRENT_STATE 3584 ≠ R1_STATE_TRAN ∧
    (mmc_sd_sec_inc_err_count_update ⟨"data", -110, 2304, 100, 101, 1⟩ 3584
      (200, 201)).status = 2304 ∧
    (mmc_sd_sec_inc_err_count_update ⟨"data", -110, 2304, 100, 101, 1⟩ 3584
      (200, 201)).count = 2 := by
  decide

/-- C16, the claim as stated fails: a completed tuning-block request (CMD19) on a host with
a card present has an opcode other than `MMC_SEND_STATUS`, yet `mmc_sd_sec_check_req_err`
returns before the timestamp is written, so the last-command timestamp stays 0 although the
current time is 500. -/
theorem tuning_block_timestamp_counterexample :
    example_host.card.isSome = true ∧
    MMC_SEND_TUNING_BLOCK ≠ MMC_SEND_STATUS ∧
    (example_env 500).jiffies_cmd = 500 ∧
    (mmc_sd_sec_check_req_err (example_env 500) example_host
      (some (example_request ⟨MMC_SEND_TUNING_BLOCK, 53, 0, 2304⟩))
      sdi_boot).tstamp_last_cmd = 0 := by
  decide

/-- C16 (amended): for every completed request on a host with a card present whose command
opcode is neither `MMC_SEND_STATUS` nor one of the two tuning-block opcodes,
`mmc_sd_sec_check_req_err` sets the last-command timestamp to the current `jiffies`; a
tuning-block request leaves the whole state unchanged; and a status-check request that is
not flagged as busy-stuck leaves the timestamp unchanged. -/
theorem last_cmd_timestamp (env : Env) (host : mmc_host) (card : mmc_card)
    (mrq : mmc_request) (cmd : mmc_command) (sdi : mmc_sd_sec_device_info)
    (hcard : host.card = some card) (hcmd : mrq.cmd = some cmd) :
    (cmd.opcode ≠ MMC_SEND_STATUS → cmd.opcode ≠ MMC_SEND_TUNING_BLOCK →
      cmd.opcode ≠ MMC_SEND_TUNING_BLOCK_HS200 →
      (mmc_sd_sec_check_req_err env host (some mrq) sdi).tstamp_last_cmd = env.jiffies_cmd) ∧
    ((cmd.opcode = MMC_SEND_TUNING_BLOCK ∨ cmd.opcode = MMC_SEND_TUNING_BLOCK_HS200) →
      mmc_sd_sec_check_req_err env host (some mrq) sdi = sdi) ∧
    (cmd.opcode = MMC_SEND_STATUS →
      flagged_busy_stuck ⟨env, host, some mrq⟩ sdi = false →
      (mmc_sd_sec_check_req_err env host (some mrq) sdi).tstamp_last_cmd =
        sdi.tstamp_last_cmd) := by
  rw [check_req_err_some _ _ _ _ _ _ hcard hcmd]
  refine ⟨fun h1 h2 h3 => ?_, fun h => ?_, fun h1 h2 => ?_⟩
  · have ht : ¬ (cmd.opcode = MMC_SEND_TUNING_BLOCK ∨
        cmd.opcode = MMC_SEND_TUNING_BLOCK_HS200) := by
      rintro (h | h)
      · exact h2 h
      · exact h3 h
    rw [if_neg ht, if_pos h1]
    split_ifs
    · rw [log_err_count_tstamp]
      simp [h1]
    · rfl
  · rw [if_pos h]
  · have ht : ¬ (cmd.opcode = MMC_SEND_TUNING_BLOCK ∨
        cmd.opcode = MMC_SEND_TUNING_BLOCK_HS200) := by
      rw [h1]
      decide
    have hflag : mmc_sd_sec_check_busy_stuck sdi.tstamp_last_cmd env.jiffies_chk
        (env.msecs_to_jiffies MMC_BLK_TIMEOUT_MS) (mrq_status mrq cmd) = false := by
      simpa [flagged_busy_stuck, req_event_opcode, req_event_status, hcmd, h1] using h2
    rw [if_neg ht]
    have hop : ¬ (cmd.opcode ≠ MMC_SEND_STATUS) := fun hne => hne h1
    rw [if_neg hop]
    split_ifs
    · rw [log_err_count_tstamp, hflag]
      simp
    · rfl

/-- Witness for C16 (amended): a single-block read (CMD17) completed at time 500 sets the
last-command timestamp to 500. -/
theorem last_cmd_timestamp_witness :
    (mmc_sd_sec_check_req_err (example_env 500) example_host
      (some (example_request ⟨17, 53, 0, 2304⟩)) sdi_boot).tstamp_last_cmd = 500 :=
  (last_cmd_timestamp (example_env 500) example_host ⟨MMC_TYPE_SD⟩
    (example_request ⟨17, 53, 0, 2304⟩) ⟨17, 53, 0, 2304⟩ sdi_boot rfl rfl).1
    (by decide) (by decide) (by decide)

/-- C17, the claim as stated fails at the boundary: with exactly the timeout elapsed (2250
ticks since the last command, timeout 2250 ticks) `time_before` is already false, and
`mmc_sd_sec_check_busy_stuck` returns true for a status word in the programming state. -/
theorem busy_stuck_boundary_counterexample :
    jiffies_elapsed 2250 0 ≤ (example_env 2250).msecs_to_jiffies MMC_BLK_TIMEOUT_MS ∧
    mmc_sd_sec_check_busy_stuck 0 2250
      ((example_env 2250).msecs_to_jiffies MMC_BLK_TIMEOUT_MS) 3584 = true := by
  decide

/-- C17 (amended): a status poll is classified as busy-stuck only if at least the 9-second
timeout has elapsed since the last non-status-check command (the source comment says
"9 secs or more"): for every status word `mmc_sd_sec_check_busy_stuck` returns false
whenever the elapsed time is strictly less than the timeout, and with exactly the timeout
elapsed it already applies the status test. -/
theorem busy_stuck_needs_timeout (tstamp jiffies timeout : Nat)
    (htimeout : timeout ≤ LONG_SIGN) :
    (jiffies_elapsed jiffies tstamp < timeout →
      ∀ status : Nat, mmc_sd_sec_check_busy_stuck tstamp jiffies timeout status = false) ∧
    (jiffies_elapsed jiffies tstamp = timeout → timeout < LONG_SIGN →
      ∀ status : Nat,
        (mmc_sd_sec_check_busy_stuck tstamp jiffies timeout status = true ↔
          status ≠ 0 ∧
            (status &&& R1_READY_FOR_DATA = 0 ∨
              R1_CURRENT_STATE status = R1_STATE_PRG))) := by
  refine ⟨fun h status => check_busy_stuck_early _ _ _ status h htimeout,
    fun h hlt status => ?_⟩
  exact check_busy_stuck_elapsed _ _ _ status (Nat.le_of_eq h.symm) (by rw [h]; exact hlt)

/-- Witness for C17 (amended): 2249 ticks after the last command, with a timeout of 2250
ticks, a status word in the programming state is not classified as busy-stuck. -/
theorem busy_stuck_needs_timeout_witness :
    mmc_sd_sec_check_busy_stuck 0 2249 2250 3584 = false :=
  (busy_stuck_needs_timeout 0 2249 2250 (by decide)).1 (by decide) 3584

/-- C18: the slot lookup never fails and never leaves the table. Take `sdi` with its
`MAX_LOG_INDEX` slots, run `mmc_sd_sec_init_err_count`, then any sequence of request
completions and card-detect events. The table is then still initialised (every slot keeps
its `err_type`), and for each of the five phase offsets and every error code (zero never
reaches the search) the
search loop of `mmc_sd_sec_inc_err_count` stops with `i < MAX_ERR_TYPE_INDEX`, so the
not-found return is not taken, at index `offset + 0` for `-EILSEQ` and `offset + 1` for any
other code; that index is below `MAX_LOG_INDEX` and its slot holds the normalised code;
and for a non-zero code the function goes on to update exactly that slot. -/
theorem slot_lookup_never_fails (s0 : mmc_sd_sec_device_info)
    (hlen : s0.err_info.length = MAX_LOG_INDEX) (evs : List session_event)
    (index : Nat) (hidx : index ∈ phase_offsets) (error : Int) :
    table_initialised (run_session evs (mmc_sd_sec_init_err_count s0)).err_info ∧
    mmc_sd_sec_inc_err_count_search (run_session evs (mmc_sd_sec_init_err_count s0)).err_info
        index (normalised_error error) MAX_ERR_TYPE_INDEX 0 =
      (if error = -EILSEQ then (index, 0) else (index + 1, 1)) ∧
    (mmc_sd_sec_inc_err_count_search (run_session evs (mmc_sd_sec_init_err_count s0)).err_info
        index (normalised_error error) MAX_ERR_TYPE_INDEX 0).2 < MAX_ERR_TYPE_INDEX ∧
    (mmc_sd_sec_inc_err_count_search (run_session evs (mmc_sd_sec_init_err_count s0)).err_info
        index (normalised_error error) MAX_ERR_TYPE_INDEX 0).1 < MAX_LOG_INDEX ∧
    ((run_session evs (mmc_sd_sec_init_err_count s0)).err_info[
        if error = -EILSEQ then index else index + 1]?).map
        (fun e => e.err_type) = some (normalised_error error) ∧
    (normalised_error error = -EILSEQ ∨ normalised_error error = -ETIMEDOUT) ∧
    (error ≠ 0 → ∀ (status : Nat) (clk : Nat × Nat),
      ∃ e, (run_session evs (mmc_sd_sec_init_err_count s0)).err_info[
          if error = -EILSEQ then index else index + 1]? = some e ∧
        mmc_sd_sec_inc_err_count index error status clk
            (run_session evs (mmc_sd_sec_init_err_count s0)).err_info =
          (run_session evs (mmc_sd_sec_init_err_count s0)).err_info.set
            (if error = -EILSEQ then index else index + 1)
            (mmc_sd_sec_inc_err_count_update e status clk)) := by
  have hinit : table_initialised (run_session evs (mmc_sd_sec_init_err_count s0)).err_info :=
    run_session_initialised evs _ (init_err_count_table_initialised s0 hlen)
  obtain ⟨i, hi, rfl⟩ := phase_offsets_cases index hidx
  obtain ⟨hs, ht⟩ := search_initialised _ hinit i hi error
  refine ⟨hinit, hs, ?_, ?_, ?_, ?_, ?_⟩
  · rw [hs]
    split_ifs <;> simp [MAX_ERR_TYPE_INDEX]
  · rw [hs]
    simp only [MAX_REQ_TYPE_INDEX] at hi
    split_ifs <;> simp only [MAX_LOG_INDEX, MAX_REQ_TYPE_INDEX, MAX_ERR_TYPE_INDEX] <;> omega
  · exact ht
  · unfold normalised_error
    split_ifs with he
    · exact Or.inr rfl
    · exact Or.inl (not_not.mp he)
  · intro herr status clk
    by_cases he : error = -EILSEQ
    · subst he
      obtain ⟨e, hget, _, heq⟩ := inc_err_count_eilseq _ hinit i hi status clk
      exact ⟨e, by simpa using hget, by simpa using heq⟩
    · obtain ⟨e, hget, _, heq⟩ := inc_err_count_other _ hinit i hi error herr he status clk
      exact ⟨e, by simpa [he] using hget, by simpa [he] using heq⟩

/-- Witness for C18: after attach, a busy-stuck status poll and a card insertion, the code
`-EIO` (-5) on the data phase is found at slot `SD_DATA_OFFSET + 1` with `i = 1`. -/
theorem slot_lookup_never_fails_witness :
    mmc_sd_sec_inc_err_count_search
      (run_session
        [.request ⟨example_env 2275, example_host, some (example_request example_poll_prg)⟩,
          .card ⟨some example_host, 1⟩]
        (mmc_sd_sec_init_err_count sdi_zero)).err_info
      SD_DATA_OFFSET (normalised_error (-5)) MAX_ERR_TYPE_INDEX 0 =
      (SD_DATA_OFFSET + 1, 1) :=
  (slot_lookup_never_fails sdi_zero (by decide)
    [.request ⟨example_env 2275, example_host, some (example_request example_poll_prg)⟩,
      .card ⟨some example_host, 1⟩]
    SD_DATA_OFFSET (by decide) (-5)).2.1

/-- C19: errors are logged only for AC or ADTC commands. `mmc_sd_sec_check_cmd_type` returns
true exactly when the flags have `MMC_RSP_PRESENT`, the command-type field is `MMC_CMD_AC`
or `MMC_CMD_ADTC` (equivalently neither `MMC_CMD_BC` nor `MMC_CMD_BCR`), the response is not
a 136-bit one and the opcode is not `MMC_APP_CMD`; and for every request it rejects,
`mmc_sd_sec_check_req_err` leaves the error table, the status-error counters and the count
of scheduled notifications as they were. -/
theorem check_cmd_type_ac_adtc (cmd : mmc_command) :
    (mmc_sd_sec_check_cmd_type cmd = true ↔
      (cmd.flags &&& MMC_RSP_PRESENT ≠ 0 ∧
        (cmd.flags &&& MMC_CMD_MASK = MMC_CMD_AC ∨
          cmd.flags &&& MMC_CMD_MASK = MMC_CMD_ADTC) ∧
        cmd.flags &&& MMC_RSP_136 = 0 ∧ cmd.opcode ≠ MMC_APP_CMD)) ∧
    ((cmd.flags &&& MMC_CMD_MASK = MMC_CMD_AC ∨ cmd.flags &&& MMC_CMD_MASK = MMC_CMD_ADTC) ↔
      (cmd.flags &&& MMC_CMD_MASK ≠ MMC_CMD_BC ∧ cmd.flags &&& MMC_CMD_MASK ≠ MMC_CMD_BCR)) ∧
    (∀ (env : Env) (host : mmc_host) (mrq : mmc_request) (sdi : mmc_sd_sec_device_info),
      mrq.cmd = some cmd → mmc_sd_sec_check_cmd_type cmd = false →
      (mmc_sd_sec_check_req_err env host (some mrq) sdi).err_info = sdi.err_info ∧
      (mmc_sd_sec_check_req_err env host (some mrq) sdi).status_err = sdi.status_err ∧
      (mmc_sd_sec_check_req_err env host (some mrq) sdi).noti_work_scheduled =
        sdi.noti_work_scheduled) := by
  obtain ⟨k1, k2⟩ := cmd_type_field cmd.flags
  refine ⟨?_, ?_, ?_⟩
  · unfold mmc_sd_sec_check_cmd_type
    rw [← k1]
    by_cases h1 : cmd.flags &&& MMC_RSP_PRESENT = 0
    · simp [h1]
    · by_cases h2 : cmd.flags &&& MMC_CMD_BC = 0
      · by_cases h3 : cmd.flags &&& MMC_RSP_136 = 0
        · by_cases h4 : cmd.opcode = MMC_APP_CMD
          · simp [h1, h2, h3, h4]
          · simp [h1, h2, h3, h4]
        · simp [h1, h2, h3]
      · simp [h1, h2]
  · rw [← k1]
    constructor
    · intro h
      have hn : ¬ (cmd.flags &&& MMC_CMD_BC ≠ 0) := fun hne => hne h
      rw [k2] at hn
      exact ⟨fun hb => hn (Or.inl hb), fun hb => hn (Or.inr hb)⟩
    · rintro ⟨hb, hbcr⟩
      by_contra hne
      rcases k2.mp hne with h | h
      · exact hb h
      · exact hbcr h
  · intro env host mrq sdi hcmd hrej
    rcases hcard : host.card with _ | card
    · rw [check_req_err_skip _ _ _ _ (Or.inl hcard)]
      exact ⟨rfl, rfl, rfl⟩
    · rw [check_req_err_some _ _ _ _ _ _ hcard hcmd, hrej]
      simp only [Bool.false_eq_true, if_false]
      split_ifs <;> exact ⟨rfl, rfl, rfl⟩

/-- Witness for C19: a broadcast command with response (BCR, flags 0x75) that failed with
`-ETIMEDOUT` is rejected by the filter and leaves the error table as it was. -/
theorem check_cmd_type_ac_adtc_witness :
    (mmc_sd_sec_check_req_err (example_env 500) example_host
      (some (example_request ⟨8, 117, -110, 0⟩)) sdi_boot).err_info = sdi_boot.err_info :=
  ((check_cmd_type_ac_adtc ⟨8, 117, -110, 0⟩).2.2 (example_env 500) example_host
    (example_request ⟨8, 117, -110, 0⟩) sdi_boot rfl (by decide)).1

/-- C14, the claim as stated fails: the counters are 32 bits wide and nothing saturates
them. With `ge_cnt = UINT_MAX`, one more request completion whose response carries
`R1_ERROR` wraps `ge_cnt` to 0, a value smaller than the one it held before. -/
theorem counter_wrap_counterexample :
    counter_value
      (run_epoch
        [.request
          ⟨example_env 10, example_host, some (example_request example_read_with_error_bit)⟩]
        { sdi_boot with status_err := ⟨UINT_MAX, 0, 0, 0, 0, 0⟩ }) 0 <
    counter_value (run_epoch [] { sdi_boot with status_err := ⟨UINT_MAX, 0, 0, 0, 0, 0⟩ }) 0 := by
  decide

/-- C14 (amended): monotonicity within an epoch, short of the 32-bit wrap. For every
sequence of request completions and notification-task runs with no card event in between,
and for every error-log slot count and status-error counter (ge, cc, ecc, wp, oor, noti):
if that counter is never incremented while it holds `UINT_MAX`, the one step at which a
32-bit counter wraps to 0, then it never takes a value smaller than one it held earlier in
the sequence. -/
theorem counters_monotone_without_wrap (evs1 evs2 : List epoch_event)
    (s0 : mmc_sd_sec_device_info) (i : Nat)
    (hrepr : counter_value s0 i ≤ UINT_MAX)
    (hnowrap : ∀ pre ev post, evs1 ++ evs2 = pre ++ ev :: post →
      counter_value (run_epoch pre s0) i = UINT_MAX →
      counter_value (run_epoch (pre ++ [ev]) s0) i = UINT_MAX) :
    counter_value (run_epoch evs1 s0) i ≤
      counter_value (run_epoch (evs1 ++ evs2) s0) i := by
  rw [run_epoch_append]
  apply run_epoch_counter_monotone evs2 (run_epoch evs1 s0) i
    (run_epoch_counter_repr evs1 s0 i hrepr)
  intro pre ev post hsplit hfull
  rw [← run_epoch_append] at hfull ⊢
  rw [← List.append_assoc]
  exact hnowrap (evs1 ++ pre) ev post (by rw [hsplit, List.append_assoc]) hfull

/-- Witness for C14 (amended): `cc_cnt` is at `UINT_MAX` and a busy-stuck status poll
completes. The poll increments the busy-check Timeout count (counter 15) from 0 to 1 and
does not touch `cc_cnt` (counter 1): neither counter decreases. -/
theorem counters_monotone_without_wrap_witness :
    counter_value (run_epoch [] { sdi_boot with status_err := ⟨0, UINT_MAX, 0, 0, 0, 0⟩ }) 15 ≤
      counter_value
        (run_epoch
          ([] ++ [.request
            ⟨example_env 2275, example_host, some (example_request example_poll_prg)⟩])
          { sdi_boot with status_err := ⟨0, UINT_MAX, 0, 0, 0, 0⟩ }) 15 ∧
    counter_value (run_epoch [] { sdi_boot with status_err := ⟨0, UINT_MAX, 0, 0, 0, 0⟩ }) 1 ≤
      counter_value
        (run_epoch
          ([] ++ [.request
            ⟨example_env 2275, example_host, some (example_request example_poll_prg)⟩])
          { sdi_boot with status_err := ⟨0, UINT_MAX, 0, 0, 0, 0⟩ }) 1 :=
  ⟨counters_monotone_without_wrap []
      [.request ⟨example_env 2275, example_host, some (example_request example_poll_prg)⟩]
      { sdi_boot with status_err := ⟨0, UINT_MAX, 0, 0, 0, 0⟩ } 15 (by decide)
      (fun pre ev post hsplit hfull => by
        obtain ⟨hpre, _⟩ := singleton_split _ ev pre post hsplit
        rw [hpre] at hfull
        exact absurd hfull (by decide)),
    counters_monotone_without_wrap []
      [.request ⟨example_env 2275, example_host, some (example_request example_poll_prg)⟩]
      { sdi_boot with status_err := ⟨0, UINT_MAX, 0, 0, 0, 0⟩ } 1 (by decide)
      (fun pre ev post hsplit _ => by
        obtain ⟨hpre, hev⟩ := singleton_split _ ev pre post hsplit
        rw [hpre, hev]
        decide)⟩

end MmcSec
